import Mathlib

/-!
Verification development for the HindiC compiler (a Devanagari-keyword
C-like language compiled to C).  The lexer, parser, symbol table,
semantic analyzer and code emitter are shallowly embedded below,
translated function-by-function from the C sources
(`src/lexer/lexer.c`, `src/parser/parser.c`, `src/ast/ast.c`,
`src/semantic/semantic.c`, `src/semantic/symbol_table.c`,
`src/codegen/codegen.c`).  Source buffers are lists of byte values
(`List Nat`, each < 256); the C null terminator at the end of the
buffer is modelled by reading byte 0 past the end of the list.
C loops are given explicit fuel computed from the remaining buffer
length (every loop in the lexer consumes at least one byte per
iteration, so the fuel never runs out on the modelled executions);
the mutually recursive parser and analyzer take a fuel argument.
-/

namespace HindiC

/-- UTF-8 encoding of one code point, byte values as natural numbers.
This is only used to write the Devanagari keyword bytes and test
inputs; the C sources see files as raw UTF-8 bytes. -/
def encodeChar (c : Char) : List Nat :=
  let n := c.toNat
  if n < 0x80 then [n]
  else if n < 0x800 then [0xC0 + n / 64, 0x80 + n % 64]
  else if n < 0x10000 then
    [0xE0 + n / 4096, 0x80 + (n / 64) % 64, 0x80 + n % 64]
  else
    [0xF0 + n / 262144, 0x80 + (n / 4096) % 64, 0x80 + (n / 64) % 64, 0x80 + n % 64]

/-- A string as the list of its UTF-8 bytes (how the C code sees source text). -/
def bytes (s : String) : List Nat :=
  (s.data.map encodeChar).flatten

/-- Byte value of an ASCII character. -/
def ch (c : Char) : Nat := c.toNat

/-- Token types, from include/lexer.h. -/
inductive TokenType where
  | TOKEN_EOF
  | TOKEN_INT | TOKEN_FLOAT | TOKEN_CHAR | TOKEN_VOID
  | TOKEN_IF | TOKEN_ELSE | TOKEN_FOR | TOKEN_WHILE
  | TOKEN_DO | TOKEN_BREAK | TOKEN_CONTINUE | TOKEN_RETURN
  | TOKEN_IDENTIFIER | TOKEN_NUMBER | TOKEN_STRING
  | TOKEN_PLUS | TOKEN_MINUS | TOKEN_MULTIPLY | TOKEN_DIVIDE | TOKEN_MODULO
  | TOKEN_ASSIGN | TOKEN_EQUALS | TOKEN_NOT_EQUALS
  | TOKEN_GREATER | TOKEN_LESS | TOKEN_GREATER_EQ | TOKEN_LESS_EQ
  | TOKEN_AND | TOKEN_OR | TOKEN_NOT
  | TOKEN_SEMICOLON | TOKEN_COMMA
  | TOKEN_LPAREN | TOKEN_RPAREN | TOKEN_LBRACE | TOKEN_RBRACE
  | TOKEN_ERROR
  deriving DecidableEq, Repr

open TokenType

/-- A token's `start` field is a C `const char *`: either a pointer into
the source buffer (an offset) or, for error tokens, a pointer to a
static message string. -/
inductive Ptr where
  | buf (off : Nat)
  | lit (s : List Nat)
  deriving DecidableEq, Repr

/-- The value union of a token.  The lexer stores a decoded integer for
integer-flavored numbers, the unescaped payload for strings, and a
float for fractional numbers; the float value itself is produced by
`strtod` and is not modelled (no verified claim reads it), only the
fact that the float branch was taken. -/
inductive TokenValue where
  | vNone
  | vInt (i : Nat)
  | vFloatRaw
  | vStr (s : List Nat)
  deriving DecidableEq, Repr

/-- Token structure from include/lexer.h. -/
structure Token where
  type : TokenType
  start : Ptr
  length : Nat
  line : Nat
  column : Nat
  value : TokenValue
  deriving DecidableEq, Repr

/-- Lexer structure from include/lexer.h: `start`/`current` are
pointers into the null-terminated source buffer, modelled as offsets. -/
structure Lexer where
  src : List Nat
  start : Nat
  current : Nat
  line : Nat
  column : Nat
  deriving DecidableEq, Repr

/-- The byte a C `char *` pointing `off` bytes into the buffer reads:
past the end of the buffer sits the null terminator. -/
def byteAt (src : List Nat) (off : Nat) : Nat := src.getD off 0

/-- The C string starting at `off` in the buffer: bytes up to the
terminator (the end of the list, or an embedded zero byte). -/
def cstrFrom (src : List Nat) (off : Nat) : List Nat :=
  (src.drop off).takeWhile (fun b => b ≠ 0)

/-- Resolve a token `start` pointer to the C string it points at. -/
def ptrStr (src : List Nat) : Ptr → List Nat
  | .buf off => cstrFrom src off
  | .lit s => s

/-- The length-bounded slice of a token (the bytes `%.*s` would print). -/
def sliceOf (src : List Nat) (t : Token) : List Nat :=
  match t.start with
  | .buf off => (src.drop off).take t.length
  | .lit s => s.take t.length

def initLexer (source : List Nat) : Lexer :=
  { src := source, start := 0, current := 0, line := 1, column := 1 }

namespace Lexer

def isAtEnd (lx : Lexer) : Bool := byteAt lx.src lx.current = 0

def peek (lx : Lexer) : Nat := byteAt lx.src lx.current

def peekNext (lx : Lexer) : Nat :=
  if lx.isAtEnd then 0 else byteAt lx.src (lx.current + 1)

/-- `advance` from lexer.c: consume one byte, return it. -/
def advance (lx : Lexer) : Lexer × Nat :=
  ({ lx with column := lx.column + 1, current := lx.current + 1 }, lx.peek)

/-- `match` from lexer.c (a Lean keyword, hence `matchByte`). -/
def matchByte (lx : Lexer) (expected : Nat) : Lexer × Bool :=
  if lx.isAtEnd then (lx, false)
  else if lx.peek ≠ expected then (lx, false)
  else ({ lx with current := lx.current + 1, column := lx.column + 1 }, true)

def makeToken (lx : Lexer) (type : TokenType) : Token :=
  { type := type
    start := .buf lx.start
    length := lx.current - lx.start
    line := lx.line
    column := lx.column - (lx.current - lx.start)
    value := .vNone }

def errorToken (lx : Lexer) (message : List Nat) : Token :=
  { type := TOKEN_ERROR
    start := .lit message
    length := message.length
    line := lx.line
    column := lx.column
    value := .vNone }

/-- Fuel for lexer loops: each iteration consumes at least one byte,
and reading at or past the end of the buffer yields the terminator. -/
def remaining (lx : Lexer) : Nat := lx.src.length + 1 - lx.current

/-- Inner comment loop of `skipWhitespace`. -/
def skipCommentF : Nat → Lexer → Lexer
  | 0, lx => lx
  | f + 1, lx =>
    if lx.peek ≠ ch '\n' && !lx.isAtEnd then skipCommentF f (lx.advance).1 else lx

def skipWhitespaceF : Nat → Lexer → Lexer
  | 0, lx => lx
  | f + 1, lx =>
    let c := lx.peek
    if c = ch ' ' ∨ c = ch '\r' ∨ c = ch '\t' then
      skipWhitespaceF f (lx.advance).1
    else if c = ch '\n' then
      skipWhitespaceF f (({ lx with line := lx.line + 1, column := 1 } : Lexer).advance).1
    else if c = ch '/' then
      if lx.peekNext = ch '/' then
        skipWhitespaceF f (skipCommentF (remaining lx) lx)
      else lx
    else lx

def skipWhitespace (lx : Lexer) : Lexer := skipWhitespaceF (remaining lx) lx

def isDigit (c : Nat) : Bool := ch '0' ≤ c && c ≤ ch '9'

/-- `isIdentifierStart` from lexer.c: ASCII letter, underscore, or a
byte ≥ 0xE0 ("simplified check for first byte of Hindi character"). -/
def isIdentifierStart (c : Nat) : Bool :=
  (ch 'a' ≤ c && c ≤ ch 'z') ||
  (ch 'A' ≤ c && c ≤ ch 'Z') ||
  c = ch '_' ||
  0xE0 ≤ c

def isIdentifierPart (c : Nat) : Bool := isIdentifierStart c || isDigit c

/-- Hindi keywords mapping table from lexer.c, as (UTF-8 bytes, token). -/
def hindiKeywords : List (List Nat × TokenType) :=
  [ (bytes "पूर्णांक", TOKEN_INT)
  , (bytes "दशमलव", TOKEN_FLOAT)
  , (bytes "वर्ण", TOKEN_CHAR)
  , (bytes "शून्य", TOKEN_VOID)
  , (bytes "अगर", TOKEN_IF)
  , (bytes "वरना", TOKEN_ELSE)
  , (bytes "दौर", TOKEN_FOR)
  , (bytes "जबतक", TOKEN_WHILE)
  , (bytes "करो", TOKEN_DO)
  , (bytes "रुको", TOKEN_BREAK)
  , (bytes "जारी", TOKEN_CONTINUE)
  , (bytes "वापस", TOKEN_RETURN) ]

def identifierF : Nat → Lexer → Lexer
  | 0, lx => lx
  | f + 1, lx =>
    if isIdentifierPart lx.peek then identifierF f (lx.advance).1 else lx

/-- The current token slice `[start, current)`, the bytes `memcmp` reads. -/
def tokenSlice (lx : Lexer) : List Nat :=
  (lx.src.drop lx.start).take (lx.current - lx.start)

/-- `identifier` from lexer.c: consume the maximal identifier-part run,
then compare the slice against each keyword (length equality plus
`memcmp` on `length` bytes). -/
def identifier (lx0 : Lexer) : Lexer × Token :=
  let lx := identifierF (remaining lx0) lx0
  match hindiKeywords.find?
      (fun kw => lx.current - lx.start = kw.1.length && tokenSlice lx = kw.1) with
  | some kw => (lx, lx.makeToken kw.2)
  | none => (lx, lx.makeToken TOKEN_IDENTIFIER)

def digitsF : Nat → Lexer → Lexer
  | 0, lx => lx
  | f + 1, lx => if isDigit lx.peek then digitsF f (lx.advance).1 else lx

/-- Value of a decimal digit string (what `strtol(..., 10)` decodes on
the consumed digit run; the truncating `(int)` cast is not modelled,
no verified claim reads the value). -/
def natOfDigits (ds : List Nat) : Nat :=
  ds.foldl (fun acc d => acc * 10 + (d - ch '0')) 0

/-- `number` from lexer.c. -/
def number (lx0 : Lexer) : Lexer × Token :=
  let lx := digitsF (remaining lx0) lx0
  if lx.peek = ch '.' && isDigit lx.peekNext then
    let lx := (lx.advance).1
    let lx := digitsF (remaining lx) lx
    (lx, { lx.makeToken TOKEN_NUMBER with value := .vFloatRaw })
  else
    (lx, { lx.makeToken TOKEN_NUMBER with value := .vInt (natOfDigits (tokenSlice lx)) })

def stringF : Nat → Lexer → Lexer
  | 0, lx => lx
  | f + 1, lx =>
    if lx.peek ≠ ch '"' && !lx.isAtEnd then
      let lx := if lx.peek = ch '\n'
        then { lx with line := lx.line + 1, column := 1 } else lx
      stringF f (lx.advance).1
    else lx

/-- `string` from lexer.c. -/
def string (lx0 : Lexer) : Lexer × Token :=
  let lx := stringF (remaining lx0) lx0
  if lx.isAtEnd then
    (lx, lx.errorToken (bytes "Unterminated string."))
  else
    let lx := (lx.advance).1
    let token := lx.makeToken TOKEN_STRING
    let interior := ((lx.src.drop (lx.start + 1)).take (token.length - 2))
    (lx, { token with value := .vStr interior })

/-- `scanToken` from lexer.c. -/
def scanToken (lx0 : Lexer) : Lexer × Token :=
  let lx := skipWhitespace lx0
  let lx := { lx with start := lx.current }
  if lx.isAtEnd then (lx, lx.makeToken TOKEN_EOF)
  else
    let (lx, c) := lx.advance
    if isIdentifierStart c then identifier lx
    else if isDigit c then number lx
    else if c = ch '(' then (lx, lx.makeToken TOKEN_LPAREN)
    else if c = ch ')' then (lx, lx.makeToken TOKEN_RPAREN)
    else if c = ch '{' then (lx, lx.makeToken TOKEN_LBRACE)
    else if c = ch '}' then (lx, lx.makeToken TOKEN_RBRACE)
    else if c = ch ';' then (lx, lx.makeToken TOKEN_SEMICOLON)
    else if c = ch ',' then (lx, lx.makeToken TOKEN_COMMA)
    else if c = ch '+' then (lx, lx.makeToken TOKEN_PLUS)
    else if c = ch '-' then (lx, lx.makeToken TOKEN_MINUS)
    else if c = ch '*' then (lx, lx.makeToken TOKEN_MULTIPLY)
    else if c = ch '/' then (lx, lx.makeToken TOKEN_DIVIDE)
    else if c = ch '%' then (lx, lx.makeToken TOKEN_MODULO)
    else if c = ch '=' then
      let (lx, m) := lx.matchByte (ch '=')
      (lx, lx.makeToken (if m then TOKEN_EQUALS else TOKEN_ASSIGN))
    else if c = ch '!' then
      let (lx, m) := lx.matchByte (ch '=')
      (lx, lx.makeToken (if m then TOKEN_NOT_EQUALS else TOKEN_NOT))
    else if c = ch '<' then
      let (lx, m) := lx.matchByte (ch '=')
      (lx, lx.makeToken (if m then TOKEN_LESS_EQ else TOKEN_LESS))
    else if c = ch '>' then
      let (lx, m) := lx.matchByte (ch '=')
      (lx, lx.makeToken (if m then TOKEN_GREATER_EQ else TOKEN_GREATER))
    else if c = ch '&' then
      let (lx, m) := lx.matchByte (ch '&')
      if m then (lx, lx.makeToken TOKEN_AND)
      else (lx, lx.errorToken (bytes "Unexpected character."))
    else if c = ch '|' then
      let (lx, m) := lx.matchByte (ch '|')
      if m then (lx, lx.makeToken TOKEN_OR)
      else (lx, lx.errorToken (bytes "Unexpected character."))
    else if c = ch '"' then string lx
    else (lx, lx.errorToken (bytes "Unexpected character."))

end Lexer

/-- AST node kind tags from include/ast.h. -/
inductive AstNodeType where
  | AST_PROGRAM | AST_FUNCTION_DECL | AST_VAR_DECL | AST_BLOCK
  | AST_IF | AST_WHILE | AST_FOR | AST_RETURN | AST_EXPRESSION_STMT
  | AST_BINARY | AST_UNARY | AST_LITERAL | AST_VARIABLE | AST_ASSIGNMENT | AST_CALL
  deriving DecidableEq, Repr

open AstNodeType

/-- Function parameter entry of AstFunctionDecl (ast.h). -/
structure Param where
  name : Token
  type : TokenType
  deriving DecidableEq, Repr

/-- AST nodes from include/ast.h, as one tagged sum: every variant
carries the base header's line/column; `Option AstNode` stands for the
C `AstNode *` fields that may be NULL.  The statement lists of
Program/Block hold only non-null pointers (the parser filters them),
while a Call's argument array can store NULL (the parser does not
filter there), hence `List (Option AstNode)`. -/
inductive AstNode where
  | program (line column : Nat) (declarations : List AstNode)
  | varDecl (line column : Nat) (name : Token) (varType : TokenType)
      (initializer : Option AstNode)
  | functionDecl (line column : Nat) (name : Token) (returnType : TokenType)
      (params : List Param) (body : Option AstNode)
  | block (line column : Nat) (statements : List AstNode)
  | ifS (line column : Nat) (condition thenBranch elseBranch : Option AstNode)
  | whileS (line column : Nat) (condition body : Option AstNode)
  | forS (line column : Nat) (initializer condition increment body : Option AstNode)
  | returnS (line column : Nat) (value : Option AstNode)
  | exprStmt (line column : Nat) (expression : Option AstNode)
  | binary (line column : Nat) (left : Option AstNode) (op : TokenType)
      (right : Option AstNode)
  | unary (line column : Nat) (op : TokenType) (right : Option AstNode)
  | literal (line column : Nat) (value : Token)
  | variableRef (line column : Nat) (name : Token)
  | assignment (line column : Nat) (name : Token) (value : Option AstNode)
  | call (line column : Nat) (name : Token) (arguments : List (Option AstNode))

namespace AstNode

/-- The `type` tag of the base header. -/
def type : AstNode → AstNodeType
  | program .. => AST_PROGRAM
  | varDecl .. => AST_VAR_DECL
  | functionDecl .. => AST_FUNCTION_DECL
  | block .. => AST_BLOCK
  | ifS .. => AST_IF
  | whileS .. => AST_WHILE
  | forS .. => AST_FOR
  | returnS .. => AST_RETURN
  | exprStmt .. => AST_EXPRESSION_STMT
  | binary .. => AST_BINARY
  | unary .. => AST_UNARY
  | literal .. => AST_LITERAL
  | variableRef .. => AST_VARIABLE
  | assignment .. => AST_ASSIGNMENT
  | call .. => AST_CALL

def line : AstNode → Nat
  | program l _ _ => l | varDecl l _ _ _ _ => l | functionDecl l _ _ _ _ _ => l
  | block l _ _ => l | ifS l _ _ _ _ => l | whileS l _ _ _ => l
  | forS l _ _ _ _ _ => l | returnS l _ _ => l | exprStmt l _ _ => l
  | binary l _ _ _ _ => l | unary l _ _ _ => l | literal l _ _ => l
  | variableRef l _ _ => l | assignment l _ _ _ => l | call l _ _ _ => l

def column : AstNode → Nat
  | program _ c _ => c | varDecl _ c _ _ _ => c | functionDecl _ c _ _ _ _ => c
  | block _ c _ => c | ifS _ c _ _ _ => c | whileS _ c _ _ => c
  | forS _ c _ _ _ _ => c | returnS _ c _ => c | exprStmt _ c _ => c
  | binary _ c _ _ _ => c | unary _ c _ _ => c | literal _ c _ => c
  | variableRef _ c _ => c | assignment _ c _ _ => c | call _ c _ _ => c

end AstNode

/-!  AST constructors from src/ast/ast.c.  Constructors that read the
line/column of a pointer argument return an extra Bool that is `true`
exactly when the C code would dereference a NULL pointer there (the
node component of the result is then fiction: the C program has
undefined behavior from that point on). -/

def createProgram : AstNode := .program 0 0 []

def createVarDecl (name : Token) (type : TokenType) (initializer : Option AstNode) :
    AstNode :=
  .varDecl name.line name.column name type initializer

def createFunctionDecl (name : Token) (returnType : TokenType) : AstNode :=
  .functionDecl name.line name.column name returnType [] none

def createBlock : AstNode := .block 0 0 []

def createIf (condition thenBranch elseBranch : Option AstNode) : AstNode × Bool :=
  match condition with
  | some c => (.ifS c.line c.column condition thenBranch elseBranch, false)
  | none => (.ifS 0 0 condition thenBranch elseBranch, true)

def createWhile (condition body : Option AstNode) : AstNode × Bool :=
  match condition with
  | some c => (.whileS c.line c.column condition body, false)
  | none => (.whileS 0 0 condition body, true)

def createFor (initializer condition increment body : Option AstNode) : AstNode :=
  let lc : Nat × Nat :=
    match initializer, condition, increment, body with
    | some n, _, _, _ => (n.line, n.column)
    | none, some n, _, _ => (n.line, n.column)
    | none, none, some n, _ => (n.line, n.column)
    | none, none, none, some n => (n.line, n.column)
    | none, none, none, none => (0, 0)
  .forS lc.1 lc.2 initializer condition increment body

def createReturn (value : Option AstNode) : AstNode :=
  match value with
  | some v => .returnS v.line v.column value
  | none => .returnS 0 0 value

def createExpressionStmt (expression : Option AstNode) : AstNode × Bool :=
  match expression with
  | some e => (.exprStmt e.line e.column expression, false)
  | none => (.exprStmt 0 0 expression, true)

def createBinary (left : Option AstNode) (op : TokenType) (right : Option AstNode) :
    AstNode × Bool :=
  match left with
  | some l => (.binary l.line l.column left op right, false)
  | none => (.binary 0 0 left op right, true)

def createUnary (op : TokenType) (right : Option AstNode) : AstNode × Bool :=
  match right with
  | some r => (.unary r.line r.column op right, false)
  | none => (.unary 0 0 op right, true)

def createLiteral (value : Token) : AstNode := .literal value.line value.column value

def createVariable (name : Token) : AstNode := .variableRef name.line name.column name

def createAssignment (name : Token) (value : Option AstNode) : AstNode :=
  .assignment name.line name.column name value

def createCall (name : Token) : AstNode := .call name.line name.column name []

/-- A diagnostic line printed to stderr by the parser
(`Line %d, Column %d: Error: %s`). -/
structure Diag where
  line : Nat
  column : Nat
  message : List Nat
  deriving DecidableEq, Repr

/-- Parser state from include/parser.h, plus two ghost observation
fields: `diags` records the diagnostics parserError actually printed,
and `crashed` records whether any C code modelled here dereferenced a
NULL AstNode pointer. -/
structure Parser where
  lexer : Lexer
  current : Token
  previous : Token
  hadError : Bool
  panicMode : Bool
  diags : List Diag
  crashed : Bool
  deriving DecidableEq, Repr

/-!  Note on diagnostic text: the C parser's messages quote punctuation
(e.g. a semicolon or parenthesis between single quotes); those
characters are spelled out as words here ("Expect semicolon after
...", "Expect left paren after ...").  No verified claim compares
these particular strings -- the claims below compare the unquoted
messages ("Expect expression.", "Undefined variable.", the two return
diagnostics), which are byte-for-byte the C strings. -/

/-- The token fields are uninitialized memory before the first
`advance`; the modelled runs never read them before assignment. -/
def uninitToken : Token :=
  { type := TOKEN_EOF, start := .lit [], length := 0, line := 0, column := 0,
    value := .vNone }

namespace Parser

/-- `parserError` from parser.c: silent in panic mode, otherwise enters
panic mode, prints one diagnostic at the current token, sets hadError. -/
def parserError (message : List Nat) (p : Parser) : Parser :=
  if p.panicMode then p
  else
    { p with
      panicMode := true
      diags := p.diags ++ [⟨p.current.line, p.current.column, message⟩]
      hadError := true }

/-- Loop inside `advance`: pull tokens, reporting and skipping
TOKEN_ERROR tokens (each such token consumed at least one source byte,
so the remaining-length fuel suffices). -/
def advanceF : Nat → Parser → Parser
  | 0, p => p
  | f + 1, p =>
    let (lx, tok) := p.lexer.scanToken
    let p := { p with lexer := lx, current := tok }
    if tok.type ≠ TOKEN_ERROR then p
    else advanceF f (parserError (ptrStr p.lexer.src tok.start) p)

def advance (p : Parser) : Parser :=
  advanceF (Lexer.remaining p.lexer) { p with previous := p.current }

def check (p : Parser) (type : TokenType) : Bool := p.current.type = type

/-- `match` from parser.c (a Lean keyword, hence `matchToken`). -/
def matchToken (p : Parser) (type : TokenType) : Parser × Bool :=
  if p.check type then (p.advance, true) else (p, false)

def consume (p : Parser) (type : TokenType) (message : List Nat) : Parser × Bool :=
  if p.check type then (p.advance, true) else (p.parserError message, false)

/-- `synchronize` from parser.c.  It is declared and defined in the
source but never invoked by any parsing routine; it is translated here
for completeness. -/
def synchronizeF : Nat → Parser → Parser
  | 0, p => p
  | f + 1, p =>
    if p.current.type ≠ TOKEN_EOF then
      if p.previous.type = TOKEN_SEMICOLON then p
      else if p.current.type = TOKEN_INT ∨ p.current.type = TOKEN_FLOAT ∨
          p.current.type = TOKEN_CHAR ∨ p.current.type = TOKEN_VOID ∨
          p.current.type = TOKEN_IF ∨ p.current.type = TOKEN_WHILE ∨
          p.current.type = TOKEN_FOR ∨ p.current.type = TOKEN_RETURN then p
      else synchronizeF f p.advance
    else p

def synchronize (fuel : Nat) (p : Parser) : Parser :=
  synchronizeF fuel { p with panicMode := false }

/-- Record that the C code dereferenced a NULL AstNode pointer. -/
def noteCrash (p : Parser) (b : Bool) : Parser :=
  if b then { p with crashed := true } else p

end Parser

/-- The parser record as `initParser` fills it, before the initial
`advance` loads the first token. -/
def rawParser (lx : Lexer) : Parser :=
  { lexer := lx, current := uninitToken, previous := uninitToken,
    hadError := false, panicMode := false, diags := [], crashed := false }

def initParser (lx : Lexer) : Parser := Parser.advance (rawParser lx)

/-- Reading `node->type` from a possibly-NULL node pointer (the value
returned for NULL is arbitrary: C has crashed, the flag records it). -/
def typeOfOpt : Option AstNode → AstNodeType × Bool
  | some n => (n.type, false)
  | none => (AST_PROGRAM, true)

/-- `((AstVariable *)expr)->name`; only evaluated under the
`expr->type == AST_VARIABLE` guard, where the node is a variable. -/
def nameOfVariable : Option AstNode → Token
  | some (.variableRef _ _ n) => n
  | _ => uninitToken

open Parser

mutual

/-- `declaration` from parser.c, including its raw-byte lookahead
`parser->lexer->current[0] == '(' || parser->lexer->current[1] == '('`. -/
def declaration : Nat → Parser → Parser × Option AstNode
  | 0, p => (p, none)
  | fuel + 1, p =>
    let (p, m1) := p.matchToken TOKEN_INT
    let (p, m2) := if m1 then (p, true) else p.matchToken TOKEN_FLOAT
    let (p, m3) := if m2 then (p, true) else p.matchToken TOKEN_CHAR
    let (p, m4) := if m3 then (p, true) else p.matchToken TOKEN_VOID
    if m4 then
      let type := p.previous.type
      if p.check TOKEN_IDENTIFIER ∧
          (byteAt p.lexer.src p.lexer.current = ch '(' ∨
           byteAt p.lexer.src (p.lexer.current + 1) = ch '(') then
        functionDeclaration fuel p type
      else
        varDeclaration fuel p type
    else
      statement fuel p

def varDeclaration : Nat → Parser → TokenType → Parser × Option AstNode
  | 0, p, _ => (p, none)
  | fuel + 1, p, type =>
    let (p, ok) := p.consume TOKEN_IDENTIFIER (bytes "Expect variable name.")
    if ok then
      let name := p.previous
      let (p, m) := p.matchToken TOKEN_ASSIGN
      let (p, initializer) := if m then expression fuel p else (p, none)
      let (p, _) := p.consume TOKEN_SEMICOLON
        (bytes "Expect semicolon after variable declaration.")
      (p, some (createVarDecl name type initializer))
    else
      (p, none)

def functionDeclaration : Nat → Parser → TokenType → Parser × Option AstNode
  | 0, p, _ => (p, none)
  | fuel + 1, p, returnType =>
    let (p, ok) := p.consume TOKEN_IDENTIFIER (bytes "Expect function name.")
    if ok then
      let name := p.previous
      let (p, _) := p.consume TOKEN_LPAREN (bytes "Expect left paren after function name.")
      let (p, params) :=
        if ¬ p.check TOKEN_RPAREN then paramsLoop fuel p [] else (p, [])
      let (p, _) := p.consume TOKEN_RPAREN (bytes "Expect right paren after parameters.")
      let (p, _) := p.consume TOKEN_LBRACE (bytes "Expect left brace before function body.")
      let (p, body) := blockStatement fuel p
      (p, some (.functionDecl name.line name.column name returnType params (some body)))
    else
      (p, none)

/-- The parameter do-while loop of `functionDeclaration`. -/
def paramsLoop : Nat → Parser → List Param → Parser × List Param
  | 0, p, params => (p, params)
  | fuel + 1, p, params =>
    if params.length ≥ 8 then
      (p.parserError (bytes "Too many function parameters."), params)
    else
      let (p, m1) := p.matchToken TOKEN_INT
      let (p, m2) := if m1 then (p, true) else p.matchToken TOKEN_FLOAT
      let (p, m3) := if m2 then (p, true) else p.matchToken TOKEN_CHAR
      let (p, params) :=
        if m3 then
          let paramType := p.previous.type
          let (p, ok) := p.consume TOKEN_IDENTIFIER (bytes "Expect parameter name.")
          if ok then (p, params ++ [⟨p.previous, paramType⟩]) else (p, params)
        else
          (p.parserError (bytes "Expect parameter type."), params)
      let (p, m) := p.matchToken TOKEN_COMMA
      if m then paramsLoop fuel p params else (p, params)

def statement : Nat → Parser → Parser × Option AstNode
  | 0, p => (p, none)
  | fuel + 1, p =>
    let (p, m) := p.matchToken TOKEN_IF
    if m then ifStatement fuel p else
    let (p, m) := p.matchToken TOKEN_WHILE
    if m then whileStatement fuel p else
    let (p, m) := p.matchToken TOKEN_FOR
    if m then forStatement fuel p else
    let (p, m) := p.matchToken TOKEN_RETURN
    if m then returnStatement fuel p else
    let (p, m) := p.matchToken TOKEN_LBRACE
    if m then
      let (p, b) := blockStatement fuel p
      (p, some b)
    else expressionStatement fuel p

def blockStatement : Nat → Parser → Parser × AstNode
  | 0, p => (p, createBlock)
  | fuel + 1, p =>
    let (p, statements) := blockLoop fuel p []
    let (p, _) := p.consume TOKEN_RBRACE (bytes "Expect right brace after block.")
    (p, .block 0 0 statements)

/-- The statement loop of `blockStatement` (NULL results are skipped). -/
def blockLoop : Nat → Parser → List AstNode → Parser × List AstNode
  | 0, p, statements => (p, statements)
  | fuel + 1, p, statements =>
    if ¬ p.check TOKEN_RBRACE ∧ ¬ p.check TOKEN_EOF then
      let (p, stmt) := declaration fuel p
      let statements :=
        match stmt with
        | some s => statements ++ [s]
        | none => statements
      blockLoop fuel p statements
    else (p, statements)

def ifStatement : Nat → Parser → Parser × Option AstNode
  | 0, p => (p, none)
  | fuel + 1, p =>
    let (p, _) := p.consume TOKEN_LPAREN (bytes "Expect left paren after if keyword.")
    let (p, condition) := expression fuel p
    let (p, _) := p.consume TOKEN_RPAREN (bytes "Expect right paren after if condition.")
    let (p, thenBranch) := statement fuel p
    let (p, m) := p.matchToken TOKEN_ELSE
    let (p, elseBranch) := if m then statement fuel p else (p, none)
    let (node, crash) := createIf condition thenBranch elseBranch
    (p.noteCrash crash, some node)

def whileStatement : Nat → Parser → Parser × Option AstNode
  | 0, p => (p, none)
  | fuel + 1, p =>
    let (p, _) := p.consume TOKEN_LPAREN (bytes "Expect left paren after while keyword.")
    let (p, condition) := expression fuel p
    let (p, _) := p.consume TOKEN_RPAREN (bytes "Expect right paren after while condition.")
    let (p, body) := statement fuel p
    let (node, crash) := createWhile condition body
    (p.noteCrash crash, some node)

def forStatement : Nat → Parser → Parser × Option AstNode
  | 0, p => (p, none)
  | fuel + 1, p =>
    let (p, _) := p.consume TOKEN_LPAREN (bytes "Expect left paren after for keyword.")
    let (p, m) := p.matchToken TOKEN_SEMICOLON
    let (p, initializer) :=
      if m then (p, none)
      else
        let (p, m1) := p.matchToken TOKEN_INT
        let (p, m2) := if m1 then (p, true) else p.matchToken TOKEN_FLOAT
        let (p, m3) := if m2 then (p, true) else p.matchToken TOKEN_CHAR
        if m3 then varDeclaration fuel p p.previous.type
        else expressionStatement fuel p
    let (p, condition) :=
      if ¬ p.check TOKEN_SEMICOLON then expression fuel p else (p, none)
    let (p, _) := p.consume TOKEN_SEMICOLON (bytes "Expect semicolon after loop condition.")
    let (p, increment) :=
      if ¬ p.check TOKEN_RPAREN then expression fuel p else (p, none)
    let (p, _) := p.consume TOKEN_RPAREN (bytes "Expect right paren after for clauses.")
    let (p, body) := statement fuel p
    (p, some (createFor initializer condition increment body))

def returnStatement : Nat → Parser → Parser × Option AstNode
  | 0, p => (p, none)
  | fuel + 1, p =>
    let (p, value) :=
      if ¬ p.check TOKEN_SEMICOLON then expression fuel p else (p, none)
    let (p, _) := p.consume TOKEN_SEMICOLON (bytes "Expect semicolon after return value.")
    (p, some (createReturn value))

def expressionStatement : Nat → Parser → Parser × Option AstNode
  | 0, p => (p, none)
  | fuel + 1, p =>
    let (p, expr) := expression fuel p
    let (p, _) := p.consume TOKEN_SEMICOLON (bytes "Expect semicolon after expression.")
    let (node, crash) := createExpressionStmt expr
    (p.noteCrash crash, some node)

def expression : Nat → Parser → Parser × Option AstNode
  | 0, p => (p, none)
  | fuel + 1, p => assignment fuel p

def assignment : Nat → Parser → Parser × Option AstNode
  | 0, p => (p, none)
  | fuel + 1, p =>
    let (p, expr) := logicalOr fuel p
    let (p, m) := p.matchToken TOKEN_ASSIGN
    if m then
      let (p, value) := assignment fuel p
      let (ty, crash) := typeOfOpt expr
      let p := p.noteCrash crash
      if ty = AST_VARIABLE then
        let name := nameOfVariable expr
        (p, some (createAssignment name value))
      else
        (p.parserError (bytes "Invalid assignment target."), expr)
    else (p, expr)

def logicalOr : Nat → Parser → Parser × Option AstNode
  | 0, p => (p, none)
  | fuel + 1, p =>
    let (p, expr) := logicalAnd fuel p
    logicalOrLoop fuel p expr

def logicalOrLoop : Nat → Parser → Option AstNode → Parser × Option AstNode
  | 0, p, expr => (p, expr)
  | fuel + 1, p, expr =>
    let (p, m) := p.matchToken TOKEN_OR
    if m then
      let op := p.previous.type
      let (p, right) := logicalAnd fuel p
      let (node, crash) := createBinary expr op right
      logicalOrLoop fuel (p.noteCrash crash) (some node)
    else (p, expr)

def logicalAnd : Nat → Parser → Parser × Option AstNode
  | 0, p => (p, none)
  | fuel + 1, p =>
    let (p, expr) := equality fuel p
    logicalAndLoop fuel p expr

def logicalAndLoop : Nat → Parser → Option AstNode → Parser × Option AstNode
  | 0, p, expr => (p, expr)
  | fuel + 1, p, expr =>
    let (p, m) := p.matchToken TOKEN_AND
    if m then
      let op := p.previous.type
      let (p, right) := equality fuel p
      let (node, crash) := createBinary expr op right
      logicalAndLoop fuel (p.noteCrash crash) (some node)
    else (p, expr)

def equality : Nat → Parser → Parser × Option AstNode
  | 0, p => (p, none)
  | fuel + 1, p =>
    let (p, expr) := comparison fuel p
    equalityLoop fuel p expr

def equalityLoop : Nat → Parser → Option AstNode → Parser × Option AstNode
  | 0, p, expr => (p, expr)
  | fuel + 1, p, expr =>
    let (p, m1) := p.matchToken TOKEN_EQUALS
    let (p, m) := if m1 then (p, true) else p.matchToken TOKEN_NOT_EQUALS
    if m then
      let op := p.previous.type
      let (p, right) := comparison fuel p
      let (node, crash) := createBinary expr op right
      equalityLoop fuel (p.noteCrash crash) (some node)
    else (p, expr)

def comparison : Nat → Parser → Parser × Option AstNode
  | 0, p => (p, none)
  | fuel + 1, p =>
    let (p, expr) := term fuel p
    comparisonLoop fuel p expr

def comparisonLoop : Nat → Parser → Option AstNode → Parser × Option AstNode
  | 0, p, expr => (p, expr)
  | fuel + 1, p, expr =>
    let (p, m1) := p.matchToken TOKEN_LESS
    let (p, m2) := if m1 then (p, true) else p.matchToken TOKEN_GREATER
    let (p, m3) := if m2 then (p, true) else p.matchToken TOKEN_LESS_EQ
    let (p, m) := if m3 then (p, true) else p.matchToken TOKEN_GREATER_EQ
    if m then
      let op := p.previous.type
      let (p, right) := term fuel p
      let (node, crash) := createBinary expr op right
      comparisonLoop fuel (p.noteCrash crash) (some node)
    else (p, expr)

def term : Nat → Parser → Parser × Option AstNode
  | 0, p => (p, none)
  | fuel + 1, p =>
    let (p, expr) := factor fuel p
    termLoop fuel p expr

def termLoop : Nat → Parser → Option AstNode → Parser × Option AstNode
  | 0, p, expr => (p, expr)
  | fuel + 1, p, expr =>
    let (p, m1) := p.matchToken TOKEN_PLUS
    let (p, m) := if m1 then (p, true) else p.matchToken TOKEN_MINUS
    if m then
      let op := p.previous.type
      let (p, right) := factor fuel p
      let (node, crash) := createBinary expr op right
      termLoop fuel (p.noteCrash crash) (some node)
    else (p, expr)

def factor : Nat → Parser → Parser × Option AstNode
  | 0, p => (p, none)
  | fuel + 1, p =>
    let (p, expr) := unary fuel p
    factorLoop fuel p expr

def factorLoop : Nat → Parser → Option AstNode → Parser × Option AstNode
  | 0, p, expr => (p, expr)
  | fuel + 1, p, expr =>
    let (p, m1) := p.matchToken TOKEN_MULTIPLY
    let (p, m2) := if m1 then (p, true) else p.matchToken TOKEN_DIVIDE
    let (p, m) := if m2 then (p, true) else p.matchToken TOKEN_MODULO
    if m then
      let op := p.previous.type
      let (p, right) := unary fuel p
      let (node, crash) := createBinary expr op right
      factorLoop fuel (p.noteCrash crash) (some node)
    else (p, expr)

def unary : Nat → Parser → Parser × Option AstNode
  | 0, p => (p, none)
  | fuel + 1, p =>
    let (p, m1) := p.matchToken TOKEN_MINUS
    let (p, m) := if m1 then (p, true) else p.matchToken TOKEN_NOT
    if m then
      let op := p.previous.type
      let (p, right) := unary fuel p
      let (node, crash) := createUnary op right
      (p.noteCrash crash, some node)
    else call fuel p

def call : Nat → Parser → Parser × Option AstNode
  | 0, p => (p, none)
  | fuel + 1, p =>
    let (p, expr) := primary fuel p
    let (p, m) := p.matchToken TOKEN_LPAREN
    if m then
      let (ty, crash) := typeOfOpt expr
      let p := p.noteCrash crash
      if ty = AST_VARIABLE then
        let name := nameOfVariable expr
        let (p, arguments) :=
          if ¬ p.check TOKEN_RPAREN then argsLoop fuel p [] else (p, [])
        let (p, _) := p.consume TOKEN_RPAREN (bytes "Expect right paren after arguments.")
        (p, some (.call name.line name.column name arguments))
      else
        (p.parserError (bytes "Can only call functions."), expr)
    else (p, expr)

/-- The argument do-while loop of `call` (NULL expression results are
stored in the argument array unfiltered, as in the C code). -/
def argsLoop : Nat → Parser → List (Option AstNode) → Parser × List (Option AstNode)
  | 0, p, arguments => (p, arguments)
  | fuel + 1, p, arguments =>
    let (p, e) := expression fuel p
    let arguments := arguments ++ [e]
    let (p, m) := p.matchToken TOKEN_COMMA
    if m then argsLoop fuel p arguments else (p, arguments)

def primary : Nat → Parser → Parser × Option AstNode
  | 0, p => (p, none)
  | fuel + 1, p =>
    let (p, m) := p.matchToken TOKEN_NUMBER
    if m then (p, some (createLiteral p.previous)) else
    let (p, m) := p.matchToken TOKEN_STRING
    if m then (p, some (createLiteral p.previous)) else
    let (p, m) := p.matchToken TOKEN_IDENTIFIER
    if m then (p, some (createVariable p.previous)) else
    let (p, m) := p.matchToken TOKEN_LPAREN
    if m then
      let (p, expr) := expression fuel p
      let (p, _) := p.consume TOKEN_RPAREN (bytes "Expect right paren after expression.")
      (p, expr)
    else (p.parserError (bytes "Expect expression."), none)

end

/-- The declaration loop of `parse` (NULL results are skipped). -/
def parseLoop : Nat → Parser → List AstNode → Parser × List AstNode
  | 0, p, declarations => (p, declarations)
  | fuel + 1, p, declarations =>
    if ¬ p.check TOKEN_EOF then
      let (p, decl) := declaration fuel p
      let declarations :=
        match decl with
        | some d => declarations ++ [d]
        | none => declarations
      parseLoop fuel p declarations
    else (p, declarations)

/-- `parse` from parser.c: returns the Program node. -/
def parse (fuel : Nat) (p : Parser) : Parser × AstNode :=
  let (p, declarations) := parseLoop fuel p []
  (p, .program 0 0 declarations)

/-! Symbol table, from include/semantic.h and src/semantic/symbol_table.c.
Symbol names are C strings: `createSymbol` copies `strlen(name)` bytes
starting at the `name` pointer, i.e. everything from that offset to the
buffer's null terminator -- not just the token slice. -/

inductive SymbolType where
  | SYMBOL_VARIABLE
  | SYMBOL_FUNCTION
  deriving DecidableEq, Repr

open SymbolType

structure Symbol where
  name : List Nat
  type : SymbolType
  dataType : TokenType
  paramCount : Nat
  paramTypes : List TokenType
  scopeDepth : Nat
  deriving DecidableEq, Repr

/-- The linked list of symbols (`first` points at the newest). -/
structure SymbolTable where
  first : List Symbol
  scopeDepth : Nat
  deriving DecidableEq, Repr

def initSymbolTable : SymbolTable := { first := [], scopeDepth := 0 }

def createSymbol (name : List Nat) (type : SymbolType) (scopeDepth : Nat) : Symbol :=
  { name := name, type := type, dataType := TOKEN_VOID,
    paramCount := 0, paramTypes := [], scopeDepth := scopeDepth }

/-- `defineVariable` from symbol_table.c.  On redefinition in the
current scope it prints an error line directly to stderr (returned as
the third component; note it does NOT go through `semanticError` and
does not touch the semantic error count) and returns no symbol. -/
def defineVariable (table : SymbolTable) (name : List Nat) (dataType : TokenType)
    (line column : Nat) : SymbolTable × Option Symbol × List Diag :=
  if table.first.any (fun s => s.scopeDepth == table.scopeDepth && s.name == name) then
    (table, none,
      [⟨line, column, bytes "Variable " ++ name ++ bytes " already defined in this scope."⟩])
  else
    let symbol := { createSymbol name SYMBOL_VARIABLE table.scopeDepth with
                    dataType := dataType }
    ({ table with first := symbol :: table.first }, some symbol, [])

/-- `defineFunction` from symbol_table.c (same direct-to-stderr
reporting as `defineVariable`). -/
def defineFunction (table : SymbolTable) (name : List Nat) (returnType : TokenType)
    (paramCount : Nat) (paramTypes : List TokenType) (line column : Nat) :
    SymbolTable × Option Symbol × List Diag :=
  if table.first.any (fun s => s.scopeDepth == 0 && s.name == name) then
    (table, none, [⟨line, column, bytes "Function " ++ name ++ bytes " already defined."⟩])
  else
    let symbol := { createSymbol name SYMBOL_FUNCTION 0 with
                    dataType := returnType
                    paramCount := paramCount
                    paramTypes := paramTypes }
    ({ table with first := symbol :: table.first }, some symbol, [])

/-- `resolveSymbol` from symbol_table.c: front-to-back scan, first
match wins (full C-string comparison via `strcmp`). -/
def resolveSymbol (table : SymbolTable) (name : List Nat) : Option Symbol :=
  table.first.find? (fun s => s.name == name)

def beginScope (table : SymbolTable) : SymbolTable :=
  { table with scopeDepth := table.scopeDepth + 1 }

/-- `endScope` from symbol_table.c: drop every symbol of the current
depth, keeping the order of the others, then decrement the depth. -/
def endScope (table : SymbolTable) : SymbolTable :=
  { first := table.first.filter (fun s => s.scopeDepth ≠ table.scopeDepth),
    scopeDepth := table.scopeDepth - 1 }

/-! Semantic analyzer, from src/semantic/semantic.c.  The combined
state carries the C `SemanticContext` (errorCount), the symbol table,
the file-scope global `currentFunctionReturnType`, the source buffer
(which the token `start` pointers point into), and ghost observations:
`reported` (diagnostics printed by `semanticError`, which increments
the count), `directMsgs` (stderr lines printed by
defineVariable/defineFunction, which do not touch the count), and
`crashed` (a NULL AstNode pointer was dereferenced). -/

structure SemState where
  src : List Nat
  errorCount : Nat
  table : SymbolTable
  currentFunctionReturnType : TokenType
  reported : List Diag
  directMsgs : List Diag
  crashed : Bool
  deriving DecidableEq, Repr

/-- Initial analyzer state over a source buffer
(`initSemanticAnalyzer` plus the initial value of the
`currentFunctionReturnType` global). -/
def initSemState (src : List Nat) : SemState :=
  { src := src, errorCount := 0, table := initSymbolTable,
    currentFunctionReturnType := TOKEN_VOID, reported := [], directMsgs := [],
    crashed := false }

/-- `semanticError` from symbol_table.c: print a diagnostic and
increment the error count. -/
def semanticError (st : SemState) (line column : Nat) (message : List Nat) : SemState :=
  { st with errorCount := st.errorCount + 1,
            reported := st.reported ++ [⟨line, column, message⟩] }

/-- The C string a token's `start` pointer designates (what the
analyzer passes to the symbol table and to `strchr`). -/
def nameStr (st : SemState) (t : Token) : List Nat := ptrStr st.src t.start

def SemState.defineVar (st : SemState) (name : List Nat) (dataType : TokenType)
    (line column : Nat) : SemState × Option Symbol :=
  let (table, symbol, printed) := defineVariable st.table name dataType line column
  ({ st with table := table, directMsgs := st.directMsgs ++ printed }, symbol)

def SemState.defineFun (st : SemState) (name : List Nat) (returnType : TokenType)
    (paramCount : Nat) (paramTypes : List TokenType) (line column : Nat) :
    SemState × Option Symbol :=
  let (table, symbol, printed) :=
    defineFunction st.table name returnType paramCount paramTypes line column
  ({ st with table := table, directMsgs := st.directMsgs ++ printed }, symbol)

def SemState.crash (st : SemState) : SemState := { st with crashed := true }

mutual

/-- `analyzeDeclaration` from semantic.c (NULL argument: C would
dereference it in the switch; recorded as a crash). -/
def analyzeDeclaration : Nat → SemState → Option AstNode → SemState × Bool
  | 0, st, _ => (st, true)
  | fuel + 1, st, node =>
    match node with
    | none => (st.crash, true)
    | some n =>
      match n.type with
      | AST_VAR_DECL => analyzeVarDecl fuel st n
      | AST_FUNCTION_DECL => analyzeFunctionDecl fuel st n
      | _ => analyzeStatement fuel st (some n)

/-- `analyzeVarDecl` from semantic.c. -/
def analyzeVarDecl : Nat → SemState → AstNode → SemState × Bool
  | 0, st, _ => (st, true)
  | fuel + 1, st, node =>
    match node with
    | .varDecl line column name varType initializer =>
      let (st, _initType) :=
        match initializer with
        | some _ =>
          let (st, initType) := analyzeExpression fuel st initializer
          let st :=
            if initType ≠ varType ∧ initType ≠ TOKEN_ERROR then
              semanticError st line column (bytes "Type mismatch in variable initialization.")
            else st
          (st, initType)
        | none => (st, TOKEN_VOID)
      let (st, symbol) := st.defineVar (nameStr st name) varType line column
      (st, symbol.isSome)
    | _ => (st.crash, true)

/-- `analyzeFunctionDecl` from semantic.c. -/
def analyzeFunctionDecl : Nat → SemState → AstNode → SemState × Bool
  | 0, st, _ => (st, true)
  | fuel + 1, st, node =>
    match node with
    | .functionDecl _ _ _ returnType params body =>
      let previousReturnType := st.currentFunctionReturnType
      let st := { st with currentFunctionReturnType := returnType }
      let st := { st with table := beginScope st.table }
      let st := params.foldl
        (fun st param =>
          (st.defineVar (nameStr st param.name) param.type
            param.name.line param.name.column).1)
        st
      let (st, result) := analyzeBlock fuel st body
      let st := { st with table := endScope st.table }
      let st := { st with currentFunctionReturnType := previousReturnType }
      (st, result)
    | _ => (st.crash, true)

/-- `analyzeStatement` from semantic.c. -/
def analyzeStatement : Nat → SemState → Option AstNode → SemState × Bool
  | 0, st, _ => (st, true)
  | fuel + 1, st, node =>
    match node with
    | none => (st.crash, true)
    | some n =>
      match n with
      | .block _ _ _ => analyzeBlock fuel st (some n)
      | .ifS _ _ condition thenBranch elseBranch =>
        analyzeIfStatement fuel st condition thenBranch elseBranch
      | .whileS _ _ condition body => analyzeWhileStatement fuel st condition body
      | .forS _ _ initializer condition increment body =>
        analyzeForStatement fuel st initializer condition increment body
      | .returnS line column value => analyzeReturnStatement fuel st line column value
      | .exprStmt _ _ expression => analyzeExpressionStatement fuel st expression
      | _ =>
        (semanticError st n.line n.column (bytes "Unknown statement type."), false)

/-- `analyzeBlock` from semantic.c (argument is the C `AstBlock *`;
a NULL or non-block pointer would be dereferenced/misread). -/
def analyzeBlock : Nat → SemState → Option AstNode → SemState × Bool
  | 0, st, _ => (st, true)
  | fuel + 1, st, node =>
    match node with
    | some (.block _ _ statements) =>
      let st := { st with table := beginScope st.table }
      let (st, result) := analyzeBlockLoop fuel st statements
      let st := { st with table := endScope st.table }
      (st, result)
    | _ => (st.crash, true)

/-- The statement loop of `analyzeBlock`: stops (returning false, after
closing the scope at the call site) at the first failing child. -/
def analyzeBlockLoop : Nat → SemState → List AstNode → SemState × Bool
  | 0, st, _ => (st, true)
  | _, st, [] => (st, true)
  | fuel + 1, st, stmt :: rest =>
    let (st, ok) := analyzeDeclaration fuel st (some stmt)
    if ok then analyzeBlockLoop fuel st rest else (st, false)

/-- `analyzeIfStatement` from semantic.c. -/
def analyzeIfStatement : Nat → SemState → Option AstNode → Option AstNode →
    Option AstNode → SemState × Bool
  | 0, st, _, _, _ => (st, true)
  | fuel + 1, st, condition, thenBranch, elseBranch =>
    let (st, condType) := analyzeExpression fuel st condition
    let st :=
      if condType ≠ TOKEN_ERROR ∧ condType ≠ TOKEN_INT then
        match condition with
        | some c => semanticError st c.line c.column
            (bytes "Condition must be a boolean expression.")
        | none => st.crash
      else st
    let (st, thenResult) := analyzeStatement fuel st thenBranch
    let (st, elseResult) :=
      match elseBranch with
      | some _ => analyzeStatement fuel st elseBranch
      | none => (st, true)
    (st, thenResult && elseResult)

/-- `analyzeWhileStatement` from semantic.c. -/
def analyzeWhileStatement : Nat → SemState → Option AstNode → Option AstNode →
    SemState × Bool
  | 0, st, _, _ => (st, true)
  | fuel + 1, st, condition, body =>
    let (st, condType) := analyzeExpression fuel st condition
    let st :=
      if condType ≠ TOKEN_ERROR ∧ condType ≠ TOKEN_INT then
        match condition with
        | some c => semanticError st c.line c.column
            (bytes "Condition must be a boolean expression.")
        | none => st.crash
      else st
    analyzeStatement fuel st body

/-- `analyzeForStatement` from semantic.c. -/
def analyzeForStatement : Nat → SemState → Option AstNode → Option AstNode →
    Option AstNode → Option AstNode → SemState × Bool
  | 0, st, _, _, _, _ => (st, true)
  | fuel + 1, st, initializer, condition, increment, body =>
    let st := { st with table := beginScope st.table }
    let (st, initOk) :=
      match initializer with
      | some _ => analyzeDeclaration fuel st initializer
      | none => (st, true)
    if ¬ initOk then
      ({ st with table := endScope st.table }, false)
    else
      let (st, _) :=
        match condition with
        | some _ =>
          let (st, condType) := analyzeExpression fuel st condition
          let st :=
            if condType ≠ TOKEN_ERROR ∧ condType ≠ TOKEN_INT then
              match condition with
              | some c => semanticError st c.line c.column
                  (bytes "Condition must be a boolean expression.")
              | none => st.crash
            else st
          (st, ())
        | none => (st, ())
      let (st, _) :=
        match increment with
        | some _ =>
          let (st, _) := analyzeExpression fuel st increment
          (st, ())
        | none => (st, ())
      let (st, result) := analyzeStatement fuel st body
      ({ st with table := endScope st.table }, result)

/-- `analyzeReturnStatement` from semantic.c, over the fields of the
`AstReturn` node (base line/column and the optional value). -/
def analyzeReturnStatement : Nat → SemState → Nat → Nat → Option AstNode →
    SemState × Bool
  | 0, st, _, _, _ => (st, true)
  | fuel + 1, st, line, column, value =>
    if st.currentFunctionReturnType = TOKEN_VOID ∧ value.isSome then
      (semanticError st line column (bytes "Cannot return a value from a void function."),
       false)
    else if st.currentFunctionReturnType ≠ TOKEN_VOID ∧ value.isNone then
      (semanticError st line column (bytes "Missing return value in non-void function."),
       false)
    else
      match value with
      | some v =>
        let (st, valueType) := analyzeExpression fuel st (some v)
        if valueType ≠ TOKEN_ERROR ∧ valueType ≠ st.currentFunctionReturnType then
          (semanticError st v.line v.column (bytes "Return type mismatch."), false)
        else (st, true)
      | none => (st, true)

/-- `analyzeExpressionStatement` from semantic.c. -/
def analyzeExpressionStatement : Nat → SemState → Option AstNode → SemState × Bool
  | 0, st, _ => (st, true)
  | fuel + 1, st, expression =>
    let (st, _) := analyzeExpression fuel st expression
    (st, true)

/-- `analyzeExpression` from semantic.c (NULL is checked explicitly
in the C code and yields the error sentinel). -/
def analyzeExpression : Nat → SemState → Option AstNode → SemState × TokenType
  | 0, st, _ => (st, TOKEN_ERROR)
  | fuel + 1, st, node =>
    match node with
    | none => (st, TOKEN_ERROR)
    | some n =>
      match n with
      | .binary line column left op right => analyzeBinary fuel st line column left op right
      | .unary line column op right => analyzeUnary fuel st line column op right
      | .literal line column value => analyzeLiteral fuel st line column value
      | .variableRef line column name => analyzeVariable fuel st line column name
      | .assignment line column name value =>
        analyzeAssignment fuel st line column name value
      | .call line column name arguments => analyzeCall fuel st line column name arguments
      | _ =>
        (semanticError st n.line n.column (bytes "Unknown expression type."), TOKEN_ERROR)

/-- `analyzeBinary` from semantic.c. -/
def analyzeBinary : Nat → SemState → Nat → Nat → Option AstNode → TokenType →
    Option AstNode → SemState × TokenType
  | 0, st, _, _, _, _, _ => (st, TOKEN_ERROR)
  | fuel + 1, st, line, column, left, op, right =>
    let (st, leftType) := analyzeExpression fuel st left
    let (st, rightType) := analyzeExpression fuel st right
    if leftType = TOKEN_ERROR ∨ rightType = TOKEN_ERROR then
      (st, TOKEN_ERROR)
    else if op = TOKEN_PLUS ∨ op = TOKEN_MINUS ∨ op = TOKEN_MULTIPLY ∨
        op = TOKEN_DIVIDE ∨ op = TOKEN_MODULO then
      if (leftType ≠ TOKEN_INT ∧ leftType ≠ TOKEN_FLOAT) ∨
          (rightType ≠ TOKEN_INT ∧ rightType ≠ TOKEN_FLOAT) then
        (semanticError st line column (bytes "Arithmetic operators require numeric operands."),
         TOKEN_ERROR)
      else if leftType = TOKEN_FLOAT ∨ rightType = TOKEN_FLOAT then (st, TOKEN_FLOAT)
      else (st, TOKEN_INT)
    else if op = TOKEN_EQUALS ∨ op = TOKEN_NOT_EQUALS ∨ op = TOKEN_LESS ∨
        op = TOKEN_GREATER ∨ op = TOKEN_LESS_EQ ∨ op = TOKEN_GREATER_EQ then
      if leftType ≠ rightType then
        (semanticError st line column (bytes "Comparison operators require compatible operands."),
         TOKEN_ERROR)
      else (st, TOKEN_INT)
    else if op = TOKEN_AND ∨ op = TOKEN_OR then
      if leftType ≠ TOKEN_INT ∨ rightType ≠ TOKEN_INT then
        (semanticError st line column (bytes "Logical operators require boolean operands."),
         TOKEN_ERROR)
      else (st, TOKEN_INT)
    else
      (semanticError st line column (bytes "Unknown binary operator."), TOKEN_ERROR)

/-- `analyzeUnary` from semantic.c. -/
def analyzeUnary : Nat → SemState → Nat → Nat → TokenType → Option AstNode →
    SemState × TokenType
  | 0, st, _, _, _, _ => (st, TOKEN_ERROR)
  | fuel + 1, st, line, column, op, right =>
    let (st, operandType) := analyzeExpression fuel st right
    if operandType = TOKEN_ERROR then (st, TOKEN_ERROR)
    else if op = TOKEN_MINUS then
      if operandType ≠ TOKEN_INT ∧ operandType ≠ TOKEN_FLOAT then
        (semanticError st line column (bytes "Unary negation requires a numeric operand."),
         TOKEN_ERROR)
      else (st, operandType)
    else if op = TOKEN_NOT then
      if operandType ≠ TOKEN_INT then
        (semanticError st line column (bytes "Logical NOT requires a boolean operand."),
         TOKEN_ERROR)
      else (st, TOKEN_INT)
    else
      (semanticError st line column (bytes "Unknown unary operator."), TOKEN_ERROR)

/-- `analyzeLiteral` from semantic.c.  NOTE: the float test is
`strchr(node->value.start, '.')`, which scans from the token start all
the way to the buffer's null terminator -- it is not bounded by the
token's length. -/
def analyzeLiteral : Nat → SemState → Nat → Nat → Token → SemState × TokenType
  | 0, st, _, _, _ => (st, TOKEN_ERROR)
  | _ + 1, st, line, column, value =>
    match value.type with
    | TOKEN_NUMBER =>
      if (ptrStr st.src value.start).contains (ch '.') then (st, TOKEN_FLOAT)
      else (st, TOKEN_INT)
    | TOKEN_STRING => (st, TOKEN_CHAR)
    | _ => (semanticError st line column (bytes "Unknown literal type."), TOKEN_ERROR)

/-- `analyzeVariable` from semantic.c (the lookup key is the C string
at the name token's start pointer). -/
def analyzeVariable : Nat → SemState → Nat → Nat → Token → SemState × TokenType
  | 0, st, _, _, _ => (st, TOKEN_ERROR)
  | _ + 1, st, line, column, name =>
    match resolveSymbol st.table (nameStr st name) with
    | none => (semanticError st line column (bytes "Undefined variable."), TOKEN_ERROR)
    | some symbol =>
      if symbol.type ≠ SYMBOL_VARIABLE then
        (semanticError st line column (bytes "Expected a variable name."), TOKEN_ERROR)
      else (st, symbol.dataType)

/-- `analyzeAssignment` from semantic.c. -/
def analyzeAssignment : Nat → SemState → Nat → Nat → Token → Option AstNode →
    SemState × TokenType
  | 0, st, _, _, _, _ => (st, TOKEN_ERROR)
  | fuel + 1, st, line, column, name, value =>
    let (st, valueType) := analyzeExpression fuel st value
    match resolveSymbol st.table (nameStr st name) with
    | none =>
      (semanticError st line column (bytes "Undefined variable in assignment."), TOKEN_ERROR)
    | some symbol =>
      if symbol.type ≠ SYMBOL_VARIABLE then
        (semanticError st line column (bytes "Cannot assign to a function."), TOKEN_ERROR)
      else if valueType ≠ TOKEN_ERROR ∧ valueType ≠ symbol.dataType then
        (semanticError st line column (bytes "Type mismatch in assignment."), TOKEN_ERROR)
      else (st, valueType)

/-- `analyzeCall` from semantic.c. -/
def analyzeCall : Nat → SemState → Nat → Nat → Token → List (Option AstNode) →
    SemState × TokenType
  | 0, st, _, _, _, _ => (st, TOKEN_ERROR)
  | fuel + 1, st, line, column, name, arguments =>
    match resolveSymbol st.table (nameStr st name) with
    | none => (semanticError st line column (bytes "Undefined function."), TOKEN_ERROR)
    | some symbol =>
      if symbol.type ≠ SYMBOL_FUNCTION then
        (semanticError st line column (bytes "Cannot call a variable."), TOKEN_ERROR)
      else if arguments.length ≠ symbol.paramCount then
        (semanticError st line column (bytes "Wrong number of arguments."), TOKEN_ERROR)
      else
        let st := analyzeCallArgs fuel st symbol.paramTypes arguments
        (st, symbol.dataType)

/-- The argument-checking loop of `analyzeCall` (the error location is
read from the argument node, which is non-NULL whenever its inferred
type is not the error sentinel). -/
def analyzeCallArgs : Nat → SemState → List TokenType → List (Option AstNode) → SemState
  | 0, st, _, _ => st
  | _, st, _, [] => st
  | fuel + 1, st, paramTypes, arg :: rest =>
    let (st, argType) := analyzeExpression fuel st arg
    let st :=
      if argType ≠ TOKEN_ERROR ∧ argType ≠ paramTypes.headD TOKEN_VOID then
        match arg with
        | some a => semanticError st a.line a.column (bytes "Argument type mismatch.")
        | none => st.crash
      else st
    analyzeCallArgs fuel st (paramTypes.tail) rest

end

/-- Pass 1 of `analyzeProgram`: register every top-level FunctionDecl. -/
def registerGlobals (st : SemState) (declarations : List AstNode) : SemState :=
  declarations.foldl
    (fun st node =>
      match node with
      | .functionDecl line column name returnType params _ =>
        let paramTypes := params.map (fun param => param.type)
        (st.defineFun (nameStr st name) returnType params.length paramTypes
          line column).1
      | _ => st)
    st

/-- Pass 2 loop of `analyzeProgram`: stop at the first failing
declaration, returning false immediately. -/
def analyzePass2 : Nat → SemState → List AstNode → SemState × Bool
  | 0, st, _ => (st, true)
  | _, st, [] => (st, true)
  | fuel + 1, st, node :: rest =>
    let (st, ok) := analyzeDeclaration fuel st (some node)
    if ok then analyzePass2 fuel st rest else (st, false)

/-- `analyzeProgram` from semantic.c: register globals, analyze each
declaration (early false on failure), else succeed iff the error count
is zero. -/
def analyzeProgram (fuel : Nat) (st : SemState) (program : AstNode) : SemState × Bool :=
  match program with
  | .program _ _ declarations =>
    let st := registerGlobals st declarations
    let (st, ok) := analyzePass2 fuel st declarations
    if ¬ ok then (st, false)
    else (st, decide (st.errorCount = 0))
  | _ => (st.crash, false)

/-! Code emitter, from src/codegen/codegen.c (the expression family;
statements are not needed by any claim below).  The output sink is the
list of bytes written; `crashed` records a NULL AstNode dereference. -/

structure CodeGenContext where
  output : List Nat
  indentLevel : Nat
  crashed : Bool
  deriving DecidableEq, Repr

def initCodeGen : CodeGenContext := { output := [], indentLevel := 0, crashed := false }

def CodeGenContext.emit (ctx : CodeGenContext) (s : List Nat) : CodeGenContext :=
  { ctx with output := ctx.output ++ s }

/-- `strncmp(a, b, n) == 0`: byte-wise comparison of two C strings up
to `n` bytes, stopping at a terminator. -/
def strncmpEq : List Nat → List Nat → Nat → Bool
  | _, _, 0 => true
  | [], [], _ => true
  | [], _ :: _, _ => false
  | _ :: _, [], _ => false
  | a :: as, b :: bs, n + 1 => a == b && (a == 0 || strncmpEq as bs n)

/-- What `fprintf(out, "%.*s", len, ptr)` writes: at most `len` bytes
starting at the pointer, stopping at the null terminator. -/
def printSlice (src : List Nat) (p : Ptr) (len : Nat) : List Nat :=
  (ptrStr src p).take len

/-- Pointer arithmetic (`token.start + 1` for string interiors). -/
def ptrAdd : Ptr → Nat → Ptr
  | .buf off, n => .buf (off + n)
  | .lit s, n => .lit (s.drop n)

/-- The operator spelling emitted by `generateBinary` (the default
case of the C switch prints a message to stderr and emits nothing). -/
def binaryOpStr (op : TokenType) : List Nat :=
  match op with
  | TOKEN_PLUS => bytes " + "
  | TOKEN_MINUS => bytes " - "
  | TOKEN_MULTIPLY => bytes " * "
  | TOKEN_DIVIDE => bytes " / "
  | TOKEN_MODULO => bytes " % "
  | TOKEN_EQUALS => bytes " == "
  | TOKEN_NOT_EQUALS => bytes " != "
  | TOKEN_LESS => bytes " < "
  | TOKEN_GREATER => bytes " > "
  | TOKEN_LESS_EQ => bytes " <= "
  | TOKEN_GREATER_EQ => bytes " >= "
  | TOKEN_AND => bytes " && "
  | TOKEN_OR => bytes " || "
  | _ => []

/-- `generateLiteral` from codegen.c. -/
def generateLiteral (src : List Nat) (ctx : CodeGenContext) (value : Token) :
    CodeGenContext :=
  match value.type with
  | TOKEN_NUMBER => ctx.emit (printSlice src value.start value.length)
  | TOKEN_STRING =>
    let ctx := ctx.emit (bytes "\"")
    let ctx := ctx.emit (printSlice src (ptrAdd value.start 1) (value.length - 2))
    ctx.emit (bytes "\"")
  | _ => ctx

/-- `generateVariable` from codegen.c. -/
def generateVariable (src : List Nat) (ctx : CodeGenContext) (name : Token) :
    CodeGenContext :=
  ctx.emit (printSlice src name.start name.length)

mutual

/-- `generateExpression` from codegen.c (a NULL node would be
dereferenced by the switch). -/
def generateExpression : Nat → List Nat → CodeGenContext → Option AstNode →
    CodeGenContext
  | 0, _, ctx, _ => ctx
  | fuel + 1, src, ctx, node =>
    match node with
    | none => { ctx with crashed := true }
    | some n =>
      match n with
      | .binary _ _ left op right => generateBinary fuel src ctx left op right
      | .unary _ _ op right => generateUnary fuel src ctx op right
      | .literal _ _ value => generateLiteral src ctx value
      | .variableRef _ _ name => generateVariable src ctx name
      | .assignment _ _ name value => generateAssignment fuel src ctx name value
      | .call _ _ name arguments => generateCall fuel src ctx name arguments
      | _ => ctx

/-- `generateBinary` from codegen.c: always parenthesized. -/
def generateBinary : Nat → List Nat → CodeGenContext → Option AstNode → TokenType →
    Option AstNode → CodeGenContext
  | 0, _, ctx, _, _, _ => ctx
  | fuel + 1, src, ctx, left, op, right =>
    let ctx := ctx.emit (bytes "(")
    let ctx := generateExpression fuel src ctx left
    let ctx := ctx.emit (binaryOpStr op)
    let ctx := generateExpression fuel src ctx right
    ctx.emit (bytes ")")

/-- `generateUnary` from codegen.c. -/
def generateUnary : Nat → List Nat → CodeGenContext → TokenType → Option AstNode →
    CodeGenContext
  | 0, _, ctx, _, _ => ctx
  | fuel + 1, src, ctx, op, right =>
    let ctx :=
      if op = TOKEN_MINUS then ctx.emit (bytes "(-")
      else if op = TOKEN_NOT then ctx.emit (bytes "!")
      else ctx
    let ctx := generateExpression fuel src ctx right
    if op = TOKEN_MINUS then ctx.emit (bytes ")") else ctx

/-- `generateCall` from codegen.c: the callee name is rewritten to
`printf`/`scanf` when `name.length == 4` (resp. 3) and the first 4
(resp. 3) bytes at the name pointer match the UTF-8 bytes of लिखो
(resp. पढ़ो); otherwise the `%.*s` slice is emitted verbatim. -/
def generateCall : Nat → List Nat → CodeGenContext → Token → List (Option AstNode) →
    CodeGenContext
  | 0, _, ctx, _, _ => ctx
  | fuel + 1, src, ctx, name, arguments =>
    let ctx :=
      if name.length = 4 ∧ strncmpEq (ptrStr src name.start) (bytes "लिखो") 4 then
        ctx.emit (bytes "printf")
      else if name.length = 3 ∧ strncmpEq (ptrStr src name.start) (bytes "पढ़ो") 3 then
        ctx.emit (bytes "scanf")
      else
        ctx.emit (printSlice src name.start name.length)
    let ctx := ctx.emit (bytes "(")
    let ctx := generateCallArgs fuel src ctx true arguments
    ctx.emit (bytes ")")

/-- The argument loop of `generateCall`. -/
def generateCallArgs : Nat → List Nat → CodeGenContext → Bool → List (Option AstNode) →
    CodeGenContext
  | 0, _, ctx, _, _ => ctx
  | _, _, ctx, _, [] => ctx
  | fuel + 1, src, ctx, isFirst, arg :: rest =>
    let ctx := if isFirst then ctx else ctx.emit (bytes ", ")
    let ctx := generateExpression fuel src ctx arg
    generateCallArgs fuel src ctx false rest

/-- `generateAssignment` from codegen.c. -/
def generateAssignment : Nat → List Nat → CodeGenContext → Token → Option AstNode →
    CodeGenContext
  | 0, _, ctx, _, _ => ctx
  | fuel + 1, src, ctx, name, value =>
    let ctx := ctx.emit (printSlice src name.start name.length ++ bytes " = ")
    generateExpression fuel src ctx value

end

/-! Observation helpers and concrete scenarios used by the theorems. -/

/-- Structural skeleton of a parsed expression: variable and literal
slices, binary operator nesting, assignment nesting.  Used to state
associativity facts about parse trees. -/
inductive ExprShape where
  | var (name : List Nat)
  | num (slice : List Nat)
  | bin (left : ExprShape) (op : TokenType) (right : ExprShape)
  | asgn (name : List Nat) (value : ExprShape)
  | other
  deriving DecidableEq, Repr

def shapeOf : Nat → List Nat → Option AstNode → ExprShape
  | 0, _, _ => .other
  | _ + 1, src, some (.variableRef _ _ n) => .var (sliceOf src n)
  | _ + 1, src, some (.literal _ _ t) => .num (sliceOf src t)
  | fuel + 1, src, some (.binary _ _ l op r) =>
    .bin (shapeOf fuel src l) op (shapeOf fuel src r)
  | fuel + 1, src, some (.assignment _ _ n v) => .asgn (sliceOf src n) (shapeOf fuel src v)
  | _ + 1, _, _ => .other

/-- Lex and parse a source string as a single expression (the
precedence-climbing entry point `expression`), then take its shape. -/
def exprShapeSrc (s : String) : ExprShape :=
  shapeOf 100 (bytes s) (expression 100 (initParser (initLexer (bytes s)))).2

/-- Run the full pipeline `parse` on a source string. -/
def parseSrc (s : String) : Parser × AstNode :=
  parse 100 (initParser (initLexer (bytes s)))

/-- C2 scenario: the buffer the name tokens point into ("x x": a
declaration of `x` at offset 0 and a reference to `x` at offset 2). -/
def c2Src : List Nat := bytes "x x"

def c2DeclTok : Token := ⟨TOKEN_IDENTIFIER, .buf 0, 1, 1, 1, .vNone⟩

def c2RefTok : Token := ⟨TOKEN_IDENTIFIER, .buf 2, 1, 1, 3, .vNone⟩

def c2Decl : AstNode := .varDecl 1 1 c2DeclTok TOKEN_INT none

/-- C3 scenario: two declarations of the same name (same offset into
the buffer "x") in the same (global) scope. -/
def c3Src : List Nat := bytes "x"

def c3NameTok : Token := ⟨TOKEN_IDENTIFIER, .buf 0, 1, 1, 1, .vNone⟩

def c3Prog : AstNode :=
  .program 0 0 [.varDecl 1 1 c3NameTok TOKEN_INT none, .varDecl 2 1 c3NameTok TOKEN_INT none]

/-- C4 scenario: a Call node whose name slice is exactly the 12 UTF-8
bytes of the print intrinsic लिखो, over the buffer "लिखो()". -/
def c4Src : List Nat := bytes "लिखो()"

def c4NameTok : Token := ⟨TOKEN_IDENTIFIER, .buf 0, 12, 1, 1, .vNone⟩

/-- C4 scenario: a 4-byte name slice equal to the first 4 bytes of
लिखो (which is what the C comparison actually tests). -/
def c4ShortSrc : List Nat := [0xE0, 0xA4, 0xB2, 0xE0]

def c4ShortTok : Token := ⟨TOKEN_IDENTIFIER, .buf 0, 4, 1, 1, .vNone⟩

/-- C5 scenario: an integer NUMBER token of slice "1" whose buffer has
a later float literal, so the tail from the token start contains '.'. -/
def c5Src : List Nat := bytes "1; 2.5"

def c5Tok : Token := ⟨TOKEN_NUMBER, .buf 0, 1, 1, 1, .vInt 1⟩

/-- C6 scenario: a fabricated current token of a type keyword (the
lexer cannot produce one, see C1), so that `declaration` takes its
type-keyword branch with the lexer budgeted at the given source. -/
def c6TypeTok : Token := ⟨TOKEN_INT, .lit [], 0, 1, 1, .vNone⟩

def mkC6State (s : String) : Parser :=
  { lexer := initLexer (bytes s), current := c6TypeTok, previous := uninitToken,
    hadError := false, panicMode := false, diags := [], crashed := false }

/-- C8 witness scenario: a literal return value. -/
def c8Value : AstNode := .literal 1 5 ⟨TOKEN_NUMBER, .lit (bytes "1"), 1, 1, 5, .vInt 1⟩

/-- The error-reporting view of parser states: how one parser step may
change panicMode / hadError / the printed diagnostics.  Once panic mode
is on, nothing changes; before that, either nothing changes or exactly
one diagnostic is printed, switching panic mode and hadError on. -/
def ErrStep (s t : Parser) : Prop :=
  (s.panicMode = true → t.panicMode = true ∧ t.diags = s.diags ∧ t.hadError = s.hadError) ∧
  (s.panicMode = false →
    (t.panicMode = false ∧ t.diags = s.diags ∧ t.hadError = s.hadError) ∨
    (t.panicMode = true ∧ t.hadError = true ∧ ∃ d, t.diags = s.diags ++ [d]))

/-- A parser state already in panic mode (C10 witness). -/
def c10Panicked : Parser :=
  { lexer := initLexer [], current := uninitToken, previous := uninitToken,
    hadError := true, panicMode := true, diags := [⟨1, 1, bytes "Expect expression."⟩],
    crashed := false }

/-! Theorems. -/

/-- C1: scanning any entry of the Devanagari keyword table does NOT
yield one token of the keyword kind followed by EOF: the identifier
run stops after the first byte (0xE0) because the UTF-8 continuation
bytes 0xA4/0xA5 are rejected by `isIdentifierPart`, so the first token
is a 1-byte IDENTIFIER and the next is an ERROR token ("Unexpected
character."), for every one of the 12 keywords. -/
theorem scanKeyword_not_recognized :
    Lexer.hindiKeywords.all (fun kw =>
      (((initLexer kw.1).scanToken).2.type == TOKEN_IDENTIFIER) &&
      (((initLexer kw.1).scanToken).2.length == 1) &&
      (((((initLexer kw.1).scanToken).1).scanToken).2.type == TOKEN_ERROR)) = true := by
  decide

/-- C2: a program that declares variable `x` and then references `x`
(equal token slices, scope still open) nevertheless gets "Undefined
variable." and the error sentinel from `analyzeVariable`, because the
symbol table keys are the unbounded C strings from each token's start
pointer to the end of the buffer ("x x" vs "x"). -/
theorem analyzeVariable_undefined_after_matching_decl :
    sliceOf c2Src c2DeclTok = sliceOf c2Src c2RefTok ∧
    (analyzeVarDecl 100 (initSemState c2Src) c2Decl).2 = true ∧
    (analyzeVariable 100 (analyzeVarDecl 100 (initSemState c2Src) c2Decl).1 1 3 c2RefTok).2
      = TOKEN_ERROR ∧
    (analyzeVariable 100 (analyzeVarDecl 100 (initSemState c2Src) c2Decl).1
        1 3 c2RefTok).1.reported
      = [⟨1, 3, bytes "Undefined variable."⟩] := by
  decide

/-- C3 counterexample: on a program redeclaring `x` at global scope,
`analyzeProgram` returns false while the semantic error count stays 0
(the redeclaration diagnostic is printed by `defineVariable` straight
to stderr without incrementing the count), refuting the claimed "iff"
and the claim that some reported diagnostic incremented the count. -/
theorem analyzeProgram_false_with_zero_errorCount :
    (analyzeProgram 100 (initSemState c3Src) c3Prog).2 = false ∧
    (analyzeProgram 100 (initSemState c3Src) c3Prog).1.errorCount = 0 := by
  decide

/-- C3 (amended): `analyzeProgram` returns true only if the error
count is zero; but it can return false with a zero count -- on the
same-scope redeclaration path the diagnostic bypasses `semanticError`
(printed directly to stderr by `defineVariable`) and the count stays 0. -/
theorem analyzeProgram_success_amended :
    (∀ (fuel : Nat) (st : SemState) (prog : AstNode),
      (analyzeProgram fuel st prog).2 = true →
        (analyzeProgram fuel st prog).1.errorCount = 0) ∧
    ((analyzeProgram 100 (initSemState c3Src) c3Prog).2 = false ∧
     (analyzeProgram 100 (initSemState c3Src) c3Prog).1.errorCount = 0 ∧
     (analyzeProgram 100 (initSemState c3Src) c3Prog).1.directMsgs ≠ []) := by
  constructor
  · intro fuel st prog
    cases prog
    case program l c decls =>
      simp only [analyzeProgram]
      rcases hp : analyzePass2 fuel (registerGlobals st decls) decls with ⟨st2, ok⟩
      cases ok <;> simp
    all_goals simp [analyzeProgram]
  · exact ⟨by decide, by decide, by decide⟩

/-- C3 witness: the first conjunct applied at a concrete succeeding
run (the empty program). -/
theorem analyzeProgram_success_amended_witness :
    (analyzeProgram 1 (initSemState []) (.program 0 0 [])).1.errorCount = 0 :=
  analyzeProgram_success_amended.1 1 (initSemState []) (.program 0 0 []) (by decide)

/-- C4: the emitter does NOT rewrite a callee whose slice equals लिखो
(12 UTF-8 bytes) -- it emits the name verbatim, because the C test is
`length == 4 && strncmp(name, "लिखो", 4) == 0`; conversely a 4-byte
name equal to लिखो's first 4 bytes IS rewritten to printf. -/
theorem generateCall_intrinsic_mismatch :
    sliceOf c4Src c4NameTok = bytes "लिखो" ∧
    (generateCall 100 c4Src initCodeGen c4NameTok []).output = bytes "लिखो()" ∧
    (generateCall 100 c4Src initCodeGen c4NameTok []).output ≠ bytes "printf()" ∧
    sliceOf c4ShortSrc c4ShortTok ≠ bytes "लिखो" ∧
    (generateCall 100 c4ShortSrc initCodeGen c4ShortTok []).output = bytes "printf()" := by
  decide

/-- C5: a NUMBER literal whose own slice is "1" (no '.') is inferred
as FLOAT because `analyzeLiteral` uses `strchr` from the token start
to the end of the buffer, which here contains a later "2.5". -/
theorem analyzeLiteral_scans_past_slice :
    (sliceOf c5Src c5Tok).contains (ch '.') = false ∧
    (analyzeLiteral 100 (initSemState c5Src) 1 1 c5Tok).2 = TOKEN_FLOAT ∧
    (ptrStr c5Src c5Tok.start).contains (ch '.') = true := by
  decide

/-- C6 counterexample: with two spaces between the identifier and the
parenthesis ("f  () ..."), the token that follows the identifier IS
'(' yet `declaration` parses a VARIABLE declaration, because the
lookahead inspects only the first two raw bytes after the identifier. -/
theorem declaration_ignores_lparen_token_after_two_spaces :
    (Lexer.scanToken ((mkC6State "f  () \x7b\x7d").advance).lexer).2.type = TOKEN_LPAREN ∧
    ((declaration 100 (mkC6State "f  () \x7b\x7d")).2.map AstNode.type)
      = some AST_VAR_DECL := by
  decide

/-- C6 (amended): after a type keyword and an identifier, the parser
chooses a function declaration exactly when a '(' byte occurs within
the first two bytes after the identifier (so zero or one byte of
whitespace is tolerated); with two or more bytes in between it parses
a variable declaration even though the next token is '('. -/
theorem declaration_lookahead_is_two_raw_bytes :
    ((declaration 100 (mkC6State "f() \x7b\x7d")).2.map AstNode.type)
      = some AST_FUNCTION_DECL ∧
    ((declaration 100 (mkC6State "f () \x7b\x7d")).2.map AstNode.type)
      = some AST_FUNCTION_DECL ∧
    ((declaration 100 (mkC6State "f  () \x7b\x7d")).2.map AstNode.type)
      = some AST_VAR_DECL ∧
    (Lexer.scanToken ((mkC6State "f  () \x7b\x7d").advance).lexer).2.type
      = TOKEN_LPAREN := by
  decide

/-- C7: for each binary operator, `a op b op c` parses left-nested,
and `a = b = c` parses right-nested (full pipeline: lexer plus the
`expression` entry point, compared by tree shape). -/
theorem binaryOps_left_assoc_assignment_right_assoc :
    exprShapeSrc "a + b + c"
      = .bin (.bin (.var (bytes "a")) TOKEN_PLUS (.var (bytes "b"))) TOKEN_PLUS
          (.var (bytes "c")) ∧
    exprShapeSrc "a - b - c"
      = .bin (.bin (.var (bytes "a")) TOKEN_MINUS (.var (bytes "b"))) TOKEN_MINUS
          (.var (bytes "c")) ∧
    exprShapeSrc "a * b * c"
      = .bin (.bin (.var (bytes "a")) TOKEN_MULTIPLY (.var (bytes "b"))) TOKEN_MULTIPLY
          (.var (bytes "c")) ∧
    exprShapeSrc "a / b / c"
      = .bin (.bin (.var (bytes "a")) TOKEN_DIVIDE (.var (bytes "b"))) TOKEN_DIVIDE
          (.var (bytes "c")) ∧
    exprShapeSrc "a % b % c"
      = .bin (.bin (.var (bytes "a")) TOKEN_MODULO (.var (bytes "b"))) TOKEN_MODULO
          (.var (bytes "c")) ∧
    exprShapeSrc "a == b == c"
      = .bin (.bin (.var (bytes "a")) TOKEN_EQUALS (.var (bytes "b"))) TOKEN_EQUALS
          (.var (bytes "c")) ∧
    exprShapeSrc "a != b != c"
      = .bin (.bin (.var (bytes "a")) TOKEN_NOT_EQUALS (.var (bytes "b"))) TOKEN_NOT_EQUALS
          (.var (bytes "c")) ∧
    exprShapeSrc "a < b < c"
      = .bin (.bin (.var (bytes "a")) TOKEN_LESS (.var (bytes "b"))) TOKEN_LESS
          (.var (bytes "c")) ∧
    exprShapeSrc "a > b > c"
      = .bin (.bin (.var (bytes "a")) TOKEN_GREATER (.var (bytes "b"))) TOKEN_GREATER
          (.var (bytes "c")) ∧
    exprShapeSrc "a <= b <= c"
      = .bin (.bin (.var (bytes "a")) TOKEN_LESS_EQ (.var (bytes "b"))) TOKEN_LESS_EQ
          (.var (bytes "c")) ∧
    exprShapeSrc "a >= b >= c"
      = .bin (.bin (.var (bytes "a")) TOKEN_GREATER_EQ (.var (bytes "b"))) TOKEN_GREATER_EQ
          (.var (bytes "c")) ∧
    exprShapeSrc "a && b && c"
      = .bin (.bin (.var (bytes "a")) TOKEN_AND (.var (bytes "b"))) TOKEN_AND
          (.var (bytes "c")) ∧
    exprShapeSrc "a || b || c"
      = .bin (.bin (.var (bytes "a")) TOKEN_OR (.var (bytes "b"))) TOKEN_OR
          (.var (bytes "c")) ∧
    exprShapeSrc "a = b = c"
      = .asgn (bytes "a") (.asgn (bytes "b") (.var (bytes "c"))) := by
  decide

/-- C8: analyzing a Return with a value while the current function
returns void yields exactly the diagnostic "Cannot return a value from
a void function." (count incremented by one); analyzing a Return with
no value in a non-void function yields exactly "Missing return value
in non-void function." -/
theorem analyzeReturn_void_value_diagnostics :
    ∀ (fuel : Nat) (st : SemState) (line column : Nat) (v : AstNode),
      (st.currentFunctionReturnType = TOKEN_VOID →
        analyzeReturnStatement (fuel + 1) st line column (some v) =
          (semanticError st line column
            (bytes "Cannot return a value from a void function."), false)) ∧
      (st.currentFunctionReturnType ≠ TOKEN_VOID →
        analyzeReturnStatement (fuel + 1) st line column none =
          (semanticError st line column
            (bytes "Missing return value in non-void function."), false)) := by
  intro fuel st line column v
  constructor
  · intro h
    simp [analyzeReturnStatement, h]
  · intro h
    simp [analyzeReturnStatement, h]

/-- C8 witness: both implications applied at concrete states (the
initial analyzer state is in a void function; the other flips the
current return type to int). -/
theorem analyzeReturn_void_value_diagnostics_witness :
    analyzeReturnStatement (99 + 1) (initSemState []) 1 1 (some c8Value) =
      (semanticError (initSemState []) 1 1
        (bytes "Cannot return a value from a void function."), false) ∧
    analyzeReturnStatement (99 + 1)
        { initSemState [] with currentFunctionReturnType := TOKEN_INT } 1 1 none =
      (semanticError { initSemState [] with currentFunctionReturnType := TOKEN_INT } 1 1
        (bytes "Missing return value in non-void function."), false) :=
  ⟨(analyzeReturn_void_value_diagnostics 99 (initSemState []) 1 1 c8Value).1 (by decide),
   (analyzeReturn_void_value_diagnostics 99
      { initSemState [] with currentFunctionReturnType := TOKEN_INT } 1 1 c8Value).2
      (by decide)⟩

/-- C9: on the source ";" the parse DOES pass the NULL returned by
`primary` ("Expect expression.") into `createExpressionStmt`, which
reads `expression->line` -- a NULL dereference. -/
theorem parse_lone_semicolon_null_deref :
    (parseSrc ";").1.crashed = true ∧
    (parseSrc ";").1.diags = [⟨1, 1, bytes "Expect expression."⟩] := by
  decide

/-! C10 apparatus: every parsing step satisfies `ErrStep`, the
error-reporting transition relation (panic mode is absorbing, at most
one diagnostic is ever added, hadError is set exactly with it). -/

theorem ErrStep.selfStep (p : Parser) : ErrStep p p :=
  ⟨fun h => ⟨h, rfl, rfl⟩, fun h => Or.inl ⟨h, rfl, rfl⟩⟩

theorem ErrStep.ofEq {s t : Parser} (h1 : t.panicMode = s.panicMode)
    (h2 : t.diags = s.diags) (h3 : t.hadError = s.hadError) : ErrStep s t :=
  ⟨fun h => ⟨h1.trans h, h2, h3⟩, fun h => Or.inl ⟨h1.trans h, h2, h3⟩⟩

theorem ErrStep.trans {s t u : Parser} (a : ErrStep s t) (b : ErrStep t u) :
    ErrStep s u := by
  obtain ⟨st1, st2⟩ := a
  obtain ⟨tu1, tu2⟩ := b
  constructor
  · intro hs
    obtain ⟨hp, hd, he⟩ := st1 hs
    obtain ⟨hp2, hd2, he2⟩ := tu1 hp
    exact ⟨hp2, hd2.trans hd, he2.trans he⟩
  · intro hs
    rcases st2 hs with ⟨hp, hd, he⟩ | ⟨hp, he, d, hd⟩
    · rcases tu2 hp with ⟨hp2, hd2, he2⟩ | ⟨hp2, he2, d, hd2⟩
      · exact Or.inl ⟨hp2, hd2.trans hd, he2.trans he⟩
      · exact Or.inr ⟨hp2, he2, d, by rw [hd2, hd]⟩
    · obtain ⟨hp2, hd2, he2⟩ := tu1 hp
      exact Or.inr ⟨hp2, he2.trans he, d, hd2.trans hd⟩

theorem errStep_ite {q : Parser} {α : Type} (c : Prop) [Decidable c] {e₁ e₂ : Parser × α}
    (h₁ : ErrStep q e₁.1) (h₂ : ErrStep q e₂.1) :
    ErrStep q (if c then e₁ else e₂).1 := by
  split
  · exact h₁
  · exact h₂

theorem errStep_iteS {q : Parser} (c : Prop) [Decidable c] {s₁ s₂ : Parser}
    (h₁ : ErrStep q s₁) (h₂ : ErrStep q s₂) :
    ErrStep q (if c then s₁ else s₂) := by
  split
  · exact h₁
  · exact h₂

theorem parserError_errStep (m : List Nat) (p : Parser) : ErrStep p (p.parserError m) := by
  unfold Parser.parserError
  by_cases h : p.panicMode = true
  · simp only [h, if_true]
    exact ErrStep.selfStep p
  · have hb : p.panicMode = false := by simpa using h
    simp only [hb, Bool.false_eq_true, if_false]
    exact ⟨fun hh => absurd hh h, fun _ => Or.inr ⟨rfl, rfl, _, rfl⟩⟩

theorem advanceF_errStep (f : Nat) : ∀ p : Parser, ErrStep p (Parser.advanceF f p) := by
  induction f with
  | zero => intro p; exact ErrStep.selfStep p
  | succ f ih =>
    intro p
    simp only [Parser.advanceF]
    have base : ErrStep p
        ({ p with lexer := (p.lexer.scanToken).1,
                  current := (p.lexer.scanToken).2 } : Parser) :=
      ErrStep.ofEq rfl rfl rfl
    exact errStep_iteS _ base (base.trans ((parserError_errStep _ _).trans (ih _)))

theorem advance_errStep (p : Parser) : ErrStep p p.advance := by
  unfold Parser.advance
  have base : ErrStep p ({ p with previous := p.current } : Parser) :=
    ErrStep.ofEq rfl rfl rfl
  exact base.trans (advanceF_errStep _ _)

theorem matchToken_errStep (p : Parser) (t : TokenType) : ErrStep p (p.matchToken t).1 := by
  unfold Parser.matchToken
  exact errStep_ite _ (advance_errStep p) (ErrStep.selfStep p)

theorem consume_errStep (p : Parser) (t : TokenType) (m : List Nat) :
    ErrStep p (p.consume t m).1 := by
  unfold Parser.consume
  exact errStep_ite _ (advance_errStep p) (parserError_errStep m p)

theorem noteCrash_errStep (p : Parser) (b : Bool) : ErrStep p (p.noteCrash b) := by
  unfold Parser.noteCrash
  exact errStep_iteS _ (ErrStep.ofEq rfl rfl rfl) (ErrStep.selfStep p)

set_option maxHeartbeats 3200000 in
/-- Every function of the recursive-descent parser is an `ErrStep`:
joint induction on the fuel over the whole mutual block. -/
theorem parserFuns_errStep : ∀ fuel : Nat,
    (∀ p, ErrStep p (declaration fuel p).1) ∧
    (∀ p ty, ErrStep p (varDeclaration fuel p ty).1) ∧
    (∀ p ty, ErrStep p (functionDeclaration fuel p ty).1) ∧
    (∀ p ps, ErrStep p (paramsLoop fuel p ps).1) ∧
    (∀ p, ErrStep p (statement fuel p).1) ∧
    (∀ p, ErrStep p (blockStatement fuel p).1) ∧
    (∀ p l, ErrStep p (blockLoop fuel p l).1) ∧
    (∀ p, ErrStep p (ifStatement fuel p).1) ∧
    (∀ p, ErrStep p (whileStatement fuel p).1) ∧
    (∀ p, ErrStep p (forStatement fuel p).1) ∧
    (∀ p, ErrStep p (returnStatement fuel p).1) ∧
    (∀ p, ErrStep p (expressionStatement fuel p).1) ∧
    (∀ p, ErrStep p (expression fuel p).1) ∧
    (∀ p, ErrStep p (assignment fuel p).1) ∧
    (∀ p, ErrStep p (logicalOr fuel p).1) ∧
    (∀ p e, ErrStep p (logicalOrLoop fuel p e).1) ∧
    (∀ p, ErrStep p (logicalAnd fuel p).1) ∧
    (∀ p e, ErrStep p (logicalAndLoop fuel p e).1) ∧
    (∀ p, ErrStep p (equality fuel p).1) ∧
    (∀ p e, ErrStep p (equalityLoop fuel p e).1) ∧
    (∀ p, ErrStep p (comparison fuel p).1) ∧
    (∀ p e, ErrStep p (comparisonLoop fuel p e).1) ∧
    (∀ p, ErrStep p (term fuel p).1) ∧
    (∀ p e, ErrStep p (termLoop fuel p e).1) ∧
    (∀ p, ErrStep p (factor fuel p).1) ∧
    (∀ p e, ErrStep p (factorLoop fuel p e).1) ∧
    (∀ p, ErrStep p (unary fuel p).1) ∧
    (∀ p, ErrStep p (call fuel p).1) ∧
    (∀ p a, ErrStep p (argsLoop fuel p a).1) ∧
    (∀ p, ErrStep p (primary fuel p).1) := by
  intro fuel
  induction fuel with
  | zero =>
    exact ⟨fun p => .selfStep p, fun p _ => .selfStep p, fun p _ => .selfStep p,
      fun p _ => .selfStep p, fun p => .selfStep p, fun p => .selfStep p,
      fun p _ => .selfStep p, fun p => .selfStep p, fun p => .selfStep p,
      fun p => .selfStep p, fun p => .selfStep p, fun p => .selfStep p,
      fun p => .selfStep p, fun p => .selfStep p, fun p => .selfStep p,
      fun p _ => .selfStep p, fun p => .selfStep p, fun p _ => .selfStep p,
      fun p => .selfStep p, fun p _ => .selfStep p, fun p => .selfStep p,
      fun p _ => .selfStep p, fun p => .selfStep p, fun p _ => .selfStep p,
      fun p => .selfStep p, fun p _ => .selfStep p, fun p => .selfStep p,
      fun p => .selfStep p, fun p _ => .selfStep p, fun p => .selfStep p⟩
  | succ fuel ih =>
    obtain ⟨ihDecl, ihVar, ihFun, ihParams, ihStmt, ihBlockS, ihBlockL, ihIf, ihWhile,
      ihFor, ihRet, ihExprS, ihExpr, ihAssign, ihLor, ihLorL, ihLand, ihLandL, ihEq,
      ihEqL, ihCmp, ihCmpL, ihTerm, ihTermL, ihFac, ihFacL, ihUnary, ihCall, ihArgs,
      ihPrim⟩ := ih
    refine ⟨?_, ?_, ?_, ?_, ?_, ?_, ?_, ?_, ?_, ?_, ?_, ?_, ?_, ?_, ?_, ?_, ?_, ?_,
      ?_, ?_, ?_, ?_, ?_, ?_, ?_, ?_, ?_, ?_, ?_, ?_⟩
    · -- declaration
      intro p
      simp only [declaration]
      refine ErrStep.trans ?_ (errStep_ite _ (errStep_ite _ (ihFun _ _) (ihVar _ _))
        (ihStmt _))
      refine ErrStep.trans ?_ (errStep_ite _ (ErrStep.selfStep _) (matchToken_errStep _ _))
      refine ErrStep.trans ?_ (errStep_ite _ (ErrStep.selfStep _) (matchToken_errStep _ _))
      refine ErrStep.trans ?_ (errStep_ite _ (ErrStep.selfStep _) (matchToken_errStep _ _))
      exact matchToken_errStep p _
    · -- varDeclaration
      intro p ty
      simp only [varDeclaration]
      refine ErrStep.trans ?_ (errStep_ite _ ?_ (ErrStep.selfStep _))
      · exact consume_errStep p _ _
      · refine ErrStep.trans ?_ (consume_errStep _ _ _)
        refine ErrStep.trans ?_ (errStep_ite _ (ihExpr _) (ErrStep.selfStep _))
        exact matchToken_errStep _ _
    · -- functionDeclaration
      intro p ty
      simp only [functionDeclaration]
      refine ErrStep.trans ?_ (errStep_ite _ ?_ (ErrStep.selfStep _))
      · exact consume_errStep p _ _
      · refine ErrStep.trans ?_ (ihBlockS _)
        refine ErrStep.trans ?_ (consume_errStep _ _ _)
        refine ErrStep.trans ?_ (consume_errStep _ _ _)
        refine ErrStep.trans ?_ (errStep_ite _ (ihParams _ _) (ErrStep.selfStep _))
        exact consume_errStep _ _ _
    · -- paramsLoop
      intro p ps
      simp only [paramsLoop]
      refine errStep_ite _ (parserError_errStep _ _) ?_
      refine ErrStep.trans ?_ (errStep_ite _ (ihParams _ _) (ErrStep.selfStep _))
      refine ErrStep.trans ?_ (matchToken_errStep _ _)
      refine ErrStep.trans ?_ (errStep_ite _ ?_ (parserError_errStep _ _))
      · refine ErrStep.trans ?_ (errStep_ite _ (ErrStep.selfStep _) (matchToken_errStep _ _))
        refine ErrStep.trans ?_ (errStep_ite _ (ErrStep.selfStep _) (matchToken_errStep _ _))
        exact matchToken_errStep p _
      · exact errStep_ite _ (consume_errStep _ _ _) (consume_errStep _ _ _)
    · -- statement
      intro p
      simp only [statement]
      refine ErrStep.trans (matchToken_errStep p _) (errStep_ite _ (ihIf _) ?_)
      refine ErrStep.trans (matchToken_errStep _ _) (errStep_ite _ (ihWhile _) ?_)
      refine ErrStep.trans (matchToken_errStep _ _) (errStep_ite _ (ihFor _) ?_)
      refine ErrStep.trans (matchToken_errStep _ _) (errStep_ite _ (ihRet _) ?_)
      refine ErrStep.trans (matchToken_errStep _ _) (errStep_ite _ ?_ (ihExprS _))
      exact ihBlockS _
    · -- blockStatement
      intro p
      simp only [blockStatement]
      exact ErrStep.trans (ihBlockL p []) (consume_errStep _ _ _)
    · -- blockLoop
      intro p l
      simp only [blockLoop]
      refine errStep_ite _ ?_ (ErrStep.selfStep _)
      exact ErrStep.trans (ihDecl p) (ihBlockL _ _)
    · -- ifStatement
      intro p
      simp only [ifStatement]
      refine ErrStep.trans ?_ (noteCrash_errStep _ _)
      refine ErrStep.trans ?_ (errStep_ite _ (ihStmt _) (ErrStep.selfStep _))
      refine ErrStep.trans ?_ (matchToken_errStep _ _)
      refine ErrStep.trans ?_ (ihStmt _)
      refine ErrStep.trans ?_ (consume_errStep _ _ _)
      exact ErrStep.trans (consume_errStep _ _ _) (ihExpr _)
    · -- whileStatement
      intro p
      simp only [whileStatement]
      refine ErrStep.trans ?_ (noteCrash_errStep _ _)
      refine ErrStep.trans ?_ (ihStmt _)
      refine ErrStep.trans ?_ (consume_errStep _ _ _)
      exact ErrStep.trans (consume_errStep _ _ _) (ihExpr _)
    · -- forStatement
      intro p
      simp only [forStatement]
      refine ErrStep.trans ?_ (ihStmt _)
      refine ErrStep.trans ?_ (consume_errStep _ _ _)
      refine ErrStep.trans ?_ (errStep_ite _ (ihExpr _) (ErrStep.selfStep _))
      refine ErrStep.trans ?_ (consume_errStep _ _ _)
      refine ErrStep.trans ?_ (errStep_ite _ (ihExpr _) (ErrStep.selfStep _))
      refine ErrStep.trans ?_ (errStep_ite _ (ErrStep.selfStep _) ?_)
      · exact ErrStep.trans (consume_errStep _ _ _) (matchToken_errStep _ _)
      · refine ErrStep.trans ?_ (errStep_ite _ (ihVar _ _) (ihExprS _))
        refine ErrStep.trans ?_ (errStep_ite _ (ErrStep.selfStep _) (matchToken_errStep _ _))
        exact ErrStep.trans (matchToken_errStep _ _)
          (errStep_ite _ (ErrStep.selfStep _) (matchToken_errStep _ _))
    · -- returnStatement
      intro p
      simp only [returnStatement]
      refine ErrStep.trans ?_ (consume_errStep _ _ _)
      exact errStep_ite _ (ihExpr _) (ErrStep.selfStep _)
    · -- expressionStatement
      intro p
      simp only [expressionStatement]
      refine ErrStep.trans ?_ (noteCrash_errStep _ _)
      exact ErrStep.trans (ihExpr _) (consume_errStep _ _ _)
    · -- expression
      intro p
      simp only [expression]
      exact ihAssign p
    · -- assignment
      intro p
      simp only [assignment]
      refine ErrStep.trans ?_ (errStep_ite _ ?_ (ErrStep.selfStep _))
      · exact ErrStep.trans (ihLor _) (matchToken_errStep _ _)
      · refine ErrStep.trans ?_ (errStep_ite _ (ErrStep.selfStep _) (parserError_errStep _ _))
        exact ErrStep.trans (ihAssign _) (noteCrash_errStep _ _)
    · -- logicalOr
      intro p
      simp only [logicalOr]
      exact ErrStep.trans (ihLand p) (ihLorL _ _)
    · -- logicalOrLoop
      intro p e
      simp only [logicalOrLoop]
      refine ErrStep.trans (matchToken_errStep p _) (errStep_ite _ ?_ (ErrStep.selfStep _))
      refine ErrStep.trans ?_ (ihLorL _ _)
      exact ErrStep.trans (ihLand _) (noteCrash_errStep _ _)
    · -- logicalAnd
      intro p
      simp only [logicalAnd]
      exact ErrStep.trans (ihEq p) (ihLandL _ _)
    · -- logicalAndLoop
      intro p e
      simp only [logicalAndLoop]
      refine ErrStep.trans (matchToken_errStep p _) (errStep_ite _ ?_ (ErrStep.selfStep _))
      refine ErrStep.trans ?_ (ihLandL _ _)
      exact ErrStep.trans (ihEq _) (noteCrash_errStep _ _)
    · -- equality
      intro p
      simp only [equality]
      exact ErrStep.trans (ihCmp p) (ihEqL _ _)
    · -- equalityLoop
      intro p e
      simp only [equalityLoop]
      refine ErrStep.trans ?_ (errStep_ite _ ?_ (ErrStep.selfStep _))
      · exact ErrStep.trans (matchToken_errStep p _)
          (errStep_ite _ (ErrStep.selfStep _) (matchToken_errStep _ _))
      · refine ErrStep.trans ?_ (ihEqL _ _)
        exact ErrStep.trans (ihCmp _) (noteCrash_errStep _ _)
    · -- comparison
      intro p
      simp only [comparison]
      exact ErrStep.trans (ihTerm p) (ihCmpL _ _)
    · -- comparisonLoop
      intro p e
      simp only [comparisonLoop]
      refine ErrStep.trans ?_ (errStep_ite _ ?_ (ErrStep.selfStep _))
      · refine ErrStep.trans ?_ (errStep_ite _ (ErrStep.selfStep _) (matchToken_errStep _ _))
        refine ErrStep.trans ?_ (errStep_ite _ (ErrStep.selfStep _) (matchToken_errStep _ _))
        exact ErrStep.trans (matchToken_errStep p _)
          (errStep_ite _ (ErrStep.selfStep _) (matchToken_errStep _ _))
      · refine ErrStep.trans ?_ (ihCmpL _ _)
        exact ErrStep.trans (ihTerm _) (noteCrash_errStep _ _)
    · -- term
      intro p
      simp only [term]
      exact ErrStep.trans (ihFac p) (ihTermL _ _)
    · -- termLoop
      intro p e
      simp only [termLoop]
      refine ErrStep.trans ?_ (errStep_ite _ ?_ (ErrStep.selfStep _))
      · exact ErrStep.trans (matchToken_errStep p _)
          (errStep_ite _ (ErrStep.selfStep _) (matchToken_errStep _ _))
      · refine ErrStep.trans ?_ (ihTermL _ _)
        exact ErrStep.trans (ihFac _) (noteCrash_errStep _ _)
    · -- factor
      intro p
      simp only [factor]
      exact ErrStep.trans (ihUnary p) (ihFacL _ _)
    · -- factorLoop
      intro p e
      simp only [factorLoop]
      refine ErrStep.trans ?_ (errStep_ite _ ?_ (ErrStep.selfStep _))
      · refine ErrStep.trans ?_ (errStep_ite _ (ErrStep.selfStep _) (matchToken_errStep _ _))
        exact ErrStep.trans (matchToken_errStep p _)
          (errStep_ite _ (ErrStep.selfStep _) (matchToken_errStep _ _))
      · refine ErrStep.trans ?_ (ihFacL _ _)
        exact ErrStep.trans (ihUnary _) (noteCrash_errStep _ _)
    · -- unary
      intro p
      simp only [unary]
      refine ErrStep.trans ?_ (errStep_ite _ ?_ (ihCall _))
      · exact ErrStep.trans (matchToken_errStep p _)
          (errStep_ite _ (ErrStep.selfStep _) (matchToken_errStep _ _))
      · exact ErrStep.trans (ihUnary _) (noteCrash_errStep _ _)
    · -- call
      intro p
      simp only [call]
      refine ErrStep.trans ?_ (errStep_ite _ ?_ (ErrStep.selfStep _))
      · exact ErrStep.trans (ihPrim _) (matchToken_errStep _ _)
      · refine ErrStep.trans (noteCrash_errStep _ _)
          (errStep_ite _ ?_ (parserError_errStep _ _))
        refine ErrStep.trans ?_ (consume_errStep _ _ _)
        exact errStep_ite _ (ihArgs _ _) (ErrStep.selfStep _)
    · -- argsLoop
      intro p a
      simp only [argsLoop]
      refine ErrStep.trans ?_ (errStep_ite _ (ihArgs _ _) (ErrStep.selfStep _))
      exact ErrStep.trans (ihExpr _) (matchToken_errStep _ _)
    · -- primary
      intro p
      simp only [primary]
      refine ErrStep.trans (matchToken_errStep p _) (errStep_ite _ (ErrStep.selfStep _) ?_)
      refine ErrStep.trans (matchToken_errStep _ _) (errStep_ite _ (ErrStep.selfStep _) ?_)
      refine ErrStep.trans (matchToken_errStep _ _) (errStep_ite _ (ErrStep.selfStep _) ?_)
      refine ErrStep.trans (matchToken_errStep _ _)
        (errStep_ite _ ?_ (parserError_errStep _ _))
      refine ErrStep.trans ?_ (consume_errStep _ _ _)
      exact ihExpr _

theorem parseLoop_errStep : ∀ (fuel : Nat) (p : Parser) (l : List AstNode),
    ErrStep p (parseLoop fuel p l).1 := by
  intro fuel
  induction fuel with
  | zero => intro p l; exact ErrStep.selfStep p
  | succ fuel ih =>
    intro p l
    simp only [parseLoop]
    refine errStep_ite _ ?_ (ErrStep.selfStep _)
    exact ErrStep.trans ((parserFuns_errStep fuel).1 p) (ih _ _)

theorem parse_errStep (fuel : Nat) (p : Parser) : ErrStep p (parse fuel p).1 := by
  unfold parse
  exact parseLoop_errStep fuel p []

/-- C10: `parserError` is silent once panic mode is on, and -- since
`synchronize` is never invoked by any parsing routine, so panic mode
is never left -- a full `parse` run prints at most one diagnostic,
hadError is set exactly when a diagnostic was printed, and panic mode
in the final state implies hadError (which is never reset to false). -/
theorem parser_first_error_sticks :
    (∀ (m : List Nat) (p : Parser), p.panicMode = true → p.parserError m = p) ∧
    (∀ (src : List Nat) (fuel : Nat),
      (parse fuel (initParser (initLexer src))).1.diags.length ≤ 1 ∧
      ((parse fuel (initParser (initLexer src))).1.hadError = true ↔
        (parse fuel (initParser (initLexer src))).1.diags ≠ []) ∧
      ((parse fuel (initParser (initLexer src))).1.panicMode = true →
        (parse fuel (initParser (initLexer src))).1.hadError = true)) := by
  constructor
  · intro m p h
    unfold Parser.parserError
    simp [h]
  · intro src fuel
    have h0 : ErrStep (rawParser (initLexer src)) (parse fuel (initParser (initLexer src))).1 :=
      ErrStep.trans (advance_errStep (rawParser (initLexer src)))
        (parse_errStep fuel (initParser (initLexer src)))
    obtain ⟨-, h2⟩ := h0
    rcases h2 rfl with ⟨hp, hd, he⟩ | ⟨hp, he, d, hd⟩
    · refine ⟨?_, ?_, ?_⟩ <;> simp [hd, he, hp, rawParser]
    · refine ⟨?_, ?_, ?_⟩ <;> simp [hd, he, hp, rawParser]

/-- C10 witness: the silence of `parserError` in panic mode at a
concrete panicked state, and the diagnostic bound on a concrete parse. -/
theorem parser_first_error_sticks_witness :
    Parser.parserError (bytes "Expect expression.") c10Panicked = c10Panicked ∧
    (parse 50 (initParser (initLexer (bytes ";")))).1.diags.length ≤ 1 :=
  ⟨parser_first_error_sticks.1 (bytes "Expect expression.") c10Panicked rfl,
   (parser_first_error_sticks.2 (bytes ";") 50).1⟩

end HindiC
